import Mathlib

/-!
# XuDL firmware: the SD card driver and the host command dispatcher

A shallow embedding of `firmware/XuDL_user/sdcard.c` and of `ServiceRequests`
in `firmware/XuDL_user/user.c`.  The C globals become fields of `SdState` and
`UsbState`, every C function becomes a function from the state before the call
to the returned byte and the state after it.  `BYTE`, `WORD` and `DWORD`
values are natural numbers, reduced modulo `2^8`, `2^16`, `2^32` wherever the
C code stores into a variable of that width.

The SPI port is the environment of the driver.  It is modelled by the stream of
bytes that successive `ReadSPI()` calls return, the number of calls made so far,
and a chronological log of everything the driver did on the port.  The USB stack
is the environment of the dispatcher: the calls into it are logged, a frame
handed to `USBGenWrite` being logged with its bytes.
-/

namespace XuDL

/-! ## SD memory card commands and block modes (`sdcard.c`, `sdcard.h`) -/

def GO_IDLE_STATE : Nat := 0x00
def SEND_CSD : Nat := 0x09
def SEND_CID : Nat := 0x0a
def READ_SINGLE_BLOCK : Nat := 0x11
def WRITE_SINGLE_BLOCK : Nat := 0x18
def APP_CMD : Nat := 0x37
def INIT_CARD : Nat := 0x29

def READ_BLOCK : Nat := 1
def WRITE_BLOCK : Nat := 2

/-! ## The SPI port -/

/-- The two clock settings `InitSd` passes to `OpenSPI`. -/
inductive SpiClock
  | SPI_FOSC_64
  | SPI_FOSC_4
deriving DecidableEq, Repr

/-- One action of the driver on the SPI port or on the chip-select pin. -/
inductive SpiEvent
  | csInit
  | cs (level : Nat)
  | openSPI (clock : SpiClock)
  | write (b : Nat)
  | read (b : Nat)
deriving DecidableEq, Repr

/-- The SPI port: `resp k` is the byte the card answers to the `k`-th
`ReadSPI()` call (counted from 0), `pos` is the number of `ReadSPI()` calls
made so far, `log` is what the driver did, oldest event first. -/
structure Spi where
  resp : Nat → Nat
  pos : Nat
  log : List SpiEvent

/-- The statement `SD_CS_INIT();`. -/
def SD_CS_INIT (spi : Spi) : Spi :=
  { spi with log := spi.log ++ [SpiEvent.csInit] }

/-- The assignment `SD_CS = level;`. -/
def setSD_CS (level : Nat) (spi : Spi) : Spi :=
  { spi with log := spi.log ++ [SpiEvent.cs level] }

/-- The call `OpenSPI( clock, MODE_00, SMPMID )`. -/
def OpenSPI (clock : SpiClock) (spi : Spi) : Spi :=
  { spi with log := spi.log ++ [SpiEvent.openSPI clock] }

/-- The call `WriteSPI( b )`: the argument is converted to `unsigned char`. -/
def WriteSPI (b : Nat) (spi : Spi) : Spi :=
  { spi with log := spi.log ++ [SpiEvent.write (b % 256)] }

/-- The call `ReadSPI()`: the next byte of the response stream. -/
def ReadSPI (spi : Spi) : Nat × Spi :=
  let b := spi.resp spi.pos % 256
  (b, { spi with pos := spi.pos + 1, log := spi.log ++ [SpiEvent.read b] })

/-! ## Driver state -/

/-- The record `currSdBlockStatus`. -/
structure SdBlockStatus where
  isOpen : Bool
  write : Bool
  read : Bool
  blockIdx : Nat
  ptr : Nat
deriving DecidableEq, Repr

/-- The globals of `sdcard.c` together with the SPI port. -/
structure SdState where
  numBlocks : Nat
  wrBlockSize : Nat
  rdBlockSize : Nat
  eraseSize : Nat
  currSdBlockStatus : SdBlockStatus
  spi : Spi

/-! ## `SendSdCmd` -/

/-- Send command to SD card and return the R1 reply. -/
def SendSdCmd (cmd arg : Nat) (spi : Spi) : Nat × Spi :=
  let spi := setSD_CS 0 spi
  let spi := WriteSPI 0xFF spi
  let spi := WriteSPI (cmd ||| 0x40) spi
  let spi := WriteSPI (arg >>> 24) spi
  let spi := WriteSPI (arg >>> 16) spi
  let spi := WriteSPI (arg >>> 8) spi
  let spi := WriteSPI arg spi
  let spi := WriteSPI 0x95 spi
  let spi := WriteSPI 0xFF spi
  ReadSPI spi

/-! ## `PrepSdForDataIo` -/

/-- The loop `while ( result != 0 ) { if ( ++retries >= 0xFF ) return 1; result = ReadSPI(); }`.
The first argument is `0xFE - retries`, the number of further re-reads the
counter still allows; it is `0` exactly when `++retries >= 0xFF` holds.
`some r` is an early `return r`, `none` means the loop was left normally. -/
def waitStatus : Nat → Nat → Spi → Option Nat × Spi
  | n, result, spi =>
    if result ≠ 0 then
      match n with
      | 0 => (some 1, spi)
      | m + 1 =>
        let (result, spi) := ReadSPI spi
        waitStatus m result spi
    else (none, spi)

/-- The loop `for ( retries = 0; retries < 0xFF; retries++ ) { ... }` that polls
for the token. The first argument is `0xFF - retries`, the number of
iterations left. `some r` is an early `return r`. -/
def pollToken : Nat → Spi → Option Nat × Spi
  | 0, spi => (none, spi)
  | m + 1, spi =>
    let (token, spi) := ReadSPI spi
    if token = 0xFE then (some 0, spi)
    else if token ≠ 0xFF then (some token, spi)
    else pollToken m spi

/-- Wait for a token signaling the start of data from the SD card. -/
def PrepSdForDataIo (cmd arg : Nat) (spi : Spi) : Nat × Spi :=
  let (result, spi) := SendSdCmd cmd arg spi
  match waitStatus 0xFE result spi with
  | (some r, spi) => (r, spi)
  | (none, spi) =>
    match pollToken 0xFF spi with
    | (some r, spi) => (r, spi)
    | (none, spi) => (0x80, spi)

/-! ## `GetSdParameters` -/

/-- The loop `for ( i = 0; i < sizeof( csd_buff ); i++ ) csd_buff[i] = ReadSPI();`
for a buffer of `n` bytes. -/
def readBuff : Nat → Spi → List Nat × Spi
  | 0, spi => ([], spi)
  | n + 1, spi =>
    let (b, spi) := ReadSPI spi
    let (rest, spi) := readBuff n spi
    (b :: rest, spi)

/-- The four card parameters. -/
structure SdParams where
  numBlocks : Nat
  wrBlockSize : Nat
  rdBlockSize : Nat
  eraseSize : Nat
deriving DecidableEq, Repr

/-- The second half of `GetSdParameters`: the assignments that compute the
card parameters from `csd_buff`. `c_size`, `wrBlockSize` and `rdBlockSize`
are 16 bits wide, `numBlocks` 32 bits, `eraseSize` 8 bits. -/
def decodeCsd (csd_buff : Nat → Nat) : SdParams :=
  let c_size := csd_buff 6 &&& 0b11
  let c_size := (c_size <<< 8) % 2 ^ 16
  let c_size := c_size ||| csd_buff 7
  let c_size := (c_size <<< 2) % 2 ^ 16
  let c_size := c_size ||| (csd_buff 8 >>> 6)
  let numBlocks := (c_size + 1) % 2 ^ 32
  let numBlocks :=
    (numBlocks <<< ((((csd_buff 9 &&& 0b11) <<< 1) ||| (csd_buff 10 >>> 7)) + 2)) % 2 ^ 32
  let wrBlockSize := 1
  let wrBlockSize :=
    (wrBlockSize <<< (((csd_buff 12 &&& 0b11) <<< 2) ||| (csd_buff 13 >>> 6))) % 2 ^ 16
  let rdBlockSize := 1
  let rdBlockSize := (rdBlockSize <<< (csd_buff 5 &&& 0b1111)) % 2 ^ 16
  let eraseSize :=
    if csd_buff 10 &&& 0b01000000 ≠ 0 then
      let _eraseSize := (512 / wrBlockSize) % 256 -- eraseSize = 512 / wrBlockSize;
      let eraseSize := 0x45 -- eraseSize = 0x45;
      eraseSize
    else
      let eraseSize := ((csd_buff 10 &&& 0b00111111) <<< 1) % 256
      let eraseSize := if csd_buff 11 &&& 0b10000000 ≠ 0 then (eraseSize + 1) % 256 else eraseSize
      let _eraseSize := (eraseSize + 1) % 256 -- eraseSize++;
      let eraseSize := 0x12 -- eraseSize = 0x12;
      eraseSize
  { numBlocks := numBlocks, wrBlockSize := wrBlockSize, rdBlockSize := rdBlockSize,
    eraseSize := eraseSize }

/-- Get SD card parameters. -/
def GetSdParameters (s : SdState) : Nat × SdState :=
  let (r, spi) := PrepSdForDataIo SEND_CSD 0 s.spi
  if r ≠ 0 then (1, { s with spi := spi })
  else
    let (csd_buff, spi) := readBuff 16 spi
    let p := decodeCsd (fun i => csd_buff.getD i 0)
    (0, { s with numBlocks := p.numBlocks, wrBlockSize := p.wrBlockSize,
                 rdBlockSize := p.rdBlockSize, eraseSize := p.eraseSize, spi := spi })

/-! ## `InitSd` -/

/-- The loop `for ( retries = 0; retries < 10; retries++ ) WriteSPI( 0xFF );`
with `n` iterations left. -/
def wakeUp : Nat → Spi → Spi
  | 0, spi => spi
  | n + 1, spi => wakeUp n (WriteSPI 0xFF spi)

/-- The loop `while ( SendSdCmd( GO_IDLE_STATE, 0 ) != 0x01 ) if ( ++retries >= 0xFF ) return 1;`.
The first argument is `0xFE - retries`, the number of further attempts the
counter still allows. `some r` is an early `return r`. -/
def goIdle : Nat → Spi → Option Nat × Spi
  | n, spi =>
    let (r, spi) := SendSdCmd GO_IDLE_STATE 0 spi
    if r ≠ 0x01 then
      match n with
      | 0 => (some 1, spi)
      | m + 1 => goIdle m spi
    else (none, spi)

/-- The loop
`while ( SendSdCmd( INIT_CARD, 0 ) != 0x00 ) { if ( ++retries >= 0xFF ) return 2; if ( SendSdCmd( APP_CMD, 0 ) == 0xFF ) return 3; }`.
The first argument is `0xFE - retries`. `some r` is an early `return r`. -/
def initCard : Nat → Spi → Option Nat × Spi
  | n, spi =>
    let (r, spi) := SendSdCmd INIT_CARD 0 spi
    if r ≠ 0x00 then
      match n with
      | 0 => (some 2, spi)
      | m + 1 =>
        let (a, spi) := SendSdCmd APP_CMD 0 spi
        if a = 0xFF then (some 3, spi)
        else initCard m spi
    else (none, spi)

/-- Initialize the interface to the SD card. -/
def InitSd (s : SdState) : Nat × SdState :=
  let spi := SD_CS_INIT s.spi
  let spi := setSD_CS 1 spi
  let spi := OpenSPI SpiClock.SPI_FOSC_64 spi
  let spi := wakeUp 10 spi
  match goIdle 0xFE spi with
  | (some r, spi) => (r, { s with spi := spi })
  | (none, spi) =>
    let spi := OpenSPI SpiClock.SPI_FOSC_4 spi
    let (a, spi) := SendSdCmd APP_CMD 0 spi
    if a = 0xFF then (3, { s with spi := spi })
    else
      match initCard 0xFE spi with
      | (some r, spi) => (r, { s with spi := spi })
      | (none, spi) =>
        let (g, s) := GetSdParameters { s with spi := spi }
        if g ≠ 0 then (4, s) else (0, s)

/-! ## `OpenSd`, `WriteSd`, `ReadSd` and `CloseSd` -/

/-- Open the SD card for reading or writing. -/
def OpenSd (blockIdx mode : Nat) (s : SdState) : Nat × SdState :=
  let st := s.currSdBlockStatus
  let st := { st with isOpen := false }
  let st := { st with read := false }
  let st := { st with write := false }
  let st := { st with ptr := 0 }
  if blockIdx < s.numBlocks then
    let st := { st with blockIdx := blockIdx }
    if mode = READ_BLOCK then
      let (r, spi) := PrepSdForDataIo READ_SINGLE_BLOCK ((blockIdx * s.rdBlockSize) % 2 ^ 32) s.spi
      if r ≠ 0 then (1, { s with currSdBlockStatus := st, spi := spi })
      else
        let st := { st with read := true }
        let st := { st with isOpen := true }
        (0, { s with currSdBlockStatus := st, spi := spi })
    else if mode = WRITE_BLOCK then
      let (r, spi) := PrepSdForDataIo WRITE_SINGLE_BLOCK ((blockIdx * s.wrBlockSize) % 2 ^ 32) s.spi
      if r ≠ 0 then (2, { s with currSdBlockStatus := st, spi := spi })
      else
        let st := { st with write := true }
        let st := { st with isOpen := true }
        (0, { s with currSdBlockStatus := st, spi := spi })
    else
      let st := { st with isOpen := true }
      (0, { s with currSdBlockStatus := st })
  else (3, { s with currSdBlockStatus := st })

/-- Write data to SD card block. The C function is declared `BYTE` and its body
is empty: it returns without a `return` statement, so no result code is produced
(`none`), and nothing is touched. -/
def WriteSd (wrBuff : List Nat) (num : Nat) (s : SdState) : Option Nat × List Nat × Nat × SdState :=
  (none, wrBuff, num, s)

/-- Read data from SD card block. The C function is declared `BYTE` and its body
is empty: it returns without a `return` statement, so no result code is produced
(`none`); the buffer `rdBuff`, the count `*num` and the driver state are as
before the call. -/
def ReadSd (rdBuff : List Nat) (num : Nat) (s : SdState) : Option Nat × List Nat × Nat × SdState :=
  (none, rdBuff, num, s)

/-- Close the SD card. The C function is declared `BYTE` but has no `return`
statement: it produces no result code (`none`). -/
def CloseSd (s : SdState) : Option Nat × SdState :=
  let st := s.currSdBlockStatus
  let st := { st with isOpen := false }
  let st := { st with read := false }
  let st := { st with write := false }
  let st := { st with ptr := 0 }
  (none, { s with currSdBlockStatus := st })

/-! ## Sequences of driver calls -/

/-- One call of a function of `sdcard.c`, with its arguments. -/
inductive SdCall
  | initSd
  | openSd (blockIdx mode : Nat)
  | closeSd
  | writeSd (wrBuff : List Nat) (num : Nat)
  | readSd (rdBuff : List Nat) (num : Nat)

/-- The driver state after one call. -/
def SdCall.step (c : SdCall) (s : SdState) : SdState :=
  match c with
  | SdCall.initSd => (InitSd s).2
  | SdCall.openSd blockIdx mode => (OpenSd blockIdx mode s).2
  | SdCall.closeSd => (CloseSd s).2
  | SdCall.writeSd wrBuff num => (WriteSd wrBuff num s).2.2.2
  | SdCall.readSd rdBuff num => (ReadSd rdBuff num s).2.2.2

/-- The driver state after a sequence of calls, first call first. -/
def runCalls : List SdCall → SdState → SdState
  | [], s => s
  | c :: cs, s => runCalls cs (c.step s)

/-- The call is not `InitSd`. -/
def SdCall.isSession (c : SdCall) : Bool :=
  match c with
  | SdCall.initSd => false
  | _ => true

/-! ## The host command dispatcher (`user.c`) -/

/-- Constants from headers that are not among the sources: the endpoint size
`USBGEN_EP_SIZE` and the values of the enumeration `USBCMD`. -/
structure UsbConfig where
  USBGEN_EP_SIZE : Nat
  ID_BOARD_CMD : Nat
  INFO_CMD : Nat
  READ_EEDATA_CMD : Nat
  WRITE_EEDATA_CMD : Nat
  RESET_CMD : Nat

/-- The five case labels of the `switch` in `ServiceRequests` are pairwise
distinct, as C requires of case labels. -/
def UsbConfig.distinct (cfg : UsbConfig) : Bool :=
  [cfg.ID_BOARD_CMD, cfg.INFO_CMD, cfg.READ_EEDATA_CMD, cfg.WRITE_EEDATA_CMD,
    cfg.RESET_CMD].Nodup

def NUM_ACTIVITY_BLINKS : Nat := 10

/-- One call into the USB stack, or a device reset. -/
inductive UsbEvent
  | genRead (slot : Nat)
  | genWrite (frame : List Nat)
  | usbDisable
  | reset
deriving DecidableEq, Repr

/-- The globals of `user.c` and their environment. A `DATA_PACKET` is the
sequence of its bytes, `pkt i` being `_byte[i]`; the pointers `OutPacket` and
`InPacket` are the index of the buffer they point to. An index of
`USBGEN_EP_SIZE` or more addresses the memory that follows the buffer; the two
EEPROM loops, whose index is bounded only by the request, access the buffers
through `usbRam`, where that memory is the next buffer. `outBusy i` is
`USBHandleBusy( OutHandle[i] )`, `outLength i` is
`USBHandleGetLength( OutHandle[i] )`, `eeprom` is the content of the data
EEPROM, `log` lists the calls into the USB stack, oldest first. -/
structure UsbState where
  OutIndex : Nat
  OutPacket : Nat
  OutPacketLength : Nat
  InIndex : Nat
  InPacket : Nat
  InBuffer : Nat → Nat → Nat
  OutBuffer : Nat → Nat → Nat
  outBusy : Nat → Bool
  outLength : Nat → Nat
  eeprom : Nat → Nat
  buffer_cntr : Nat
  blink_counter : Nat
  log : List UsbEvent

/-- The store `pkt._byte[i] = v`. -/
def storeByte (pkt : Nat → Nat) (i v : Nat) : Nat → Nat :=
  fun j => if j = i then v % 256 else pkt j

/-- The store `pkt._word[k] = v`: two bytes, least significant first. -/
def storeWord (pkt : Nat → Nat) (k v : Nat) : Nat → Nat :=
  storeByte (storeByte pkt (2 * k) v) (2 * k + 1) (v >>> 8)

/-- The store `pkt._dword[k] = v`: four bytes, least significant first. -/
def storeDword (pkt : Nat → Nat) (k v : Nat) : Nat → Nat :=
  storeByte (storeByte (storeByte (storeByte pkt (4 * k) v) (4 * k + 1) (v >>> 8))
    (4 * k + 2) (v >>> 16)) (4 * k + 3) (v >>> 24)

/-- Replace buffer `slot` of a pair of buffers. -/
def setPacket (buf : Nat → Nat → Nat) (slot : Nat) (pkt : Nat → Nat) : Nat → Nat → Nat :=
  fun i => if i = slot then pkt else buf i

/-- The function `ReadEeprom`: the byte of the data EEPROM at `address`. -/
def ReadEeprom (eeprom : Nat → Nat) (address : Nat) : Nat :=
  eeprom (address % 256) % 256

/-- The function `WriteEeprom`: the data EEPROM after writing `data` at `address`. -/
def WriteEeprom (eeprom : Nat → Nat) (address data : Nat) : Nat → Nat :=
  fun a => if a = address % 256 then data % 256 else eeprom a

/-- The byte at offset `a` of the section `usbram2`. The section holds
`InBuffer[0]`, `InBuffer[1]`, `OutBuffer[0]`, `OutBuffer[1]` in the order of
their declaration, each of `USBGEN_EP_SIZE` bytes, so a store past the end of
one buffer lands in the next. An offset past the section addresses the memory
that follows `OutBuffer[1]`. -/
def usbRam (cfg : UsbConfig) (st : UsbState) : Nat → Nat :=
  fun a =>
    if a < cfg.USBGEN_EP_SIZE then st.InBuffer 0 a
    else if a < 2 * cfg.USBGEN_EP_SIZE then st.InBuffer 1 (a - cfg.USBGEN_EP_SIZE)
    else if a < 3 * cfg.USBGEN_EP_SIZE then st.OutBuffer 0 (a - 2 * cfg.USBGEN_EP_SIZE)
    else st.OutBuffer 1 (a - 3 * cfg.USBGEN_EP_SIZE)

/-- The state whose buffers hold the content `ram` of the section `usbram2`:
`InBuffer[i]` starts at offset `i * USBGEN_EP_SIZE`, `OutBuffer[i]` at offset
`(2 + i) * USBGEN_EP_SIZE`. -/
def setUsbRam (cfg : UsbConfig) (st : UsbState) (ram : Nat → Nat) : UsbState :=
  { st with InBuffer := fun i j => ram (i * cfg.USBGEN_EP_SIZE + j),
            OutBuffer := fun i j => ram ((2 + i) * cfg.USBGEN_EP_SIZE + j) }

/-- The loop of `READ_EEDATA_CMD`,
`for(buffer_cntr=0; buffer_cntr < OutPacket->len; buffer_cntr++) InPacket->data[buffer_cntr] = ReadEeprom((BYTE)OutPacket->ADR.pAdr + buffer_cntr);`,
on the content `ram` of the section `usbram2`. `inBase` and `outBase` are the
offsets of `*InPacket` and `*OutPacket`; `OutPacket->len` is the byte at
`outBase + 1` and the low address byte the byte at `outBase + 2`, both read
anew in every iteration; `data[i]` is the byte at `inBase + 5 + i`. The first
argument is `0xFF - buffer_cntr`: the test fails at the latest when
`buffer_cntr` is `0xFF`. The result is the final `buffer_cntr` and the content
of the section. -/
def readEeLoop (eeprom : Nat → Nat) (inBase outBase : Nat) :
    Nat → Nat → (Nat → Nat) → Nat × (Nat → Nat)
  | 0, buffer_cntr, ram => (buffer_cntr, ram)
  | n + 1, buffer_cntr, ram =>
    if buffer_cntr < ram (outBase + 1) % 256 then
      readEeLoop eeprom inBase outBase n (buffer_cntr + 1)
        (storeByte ram (inBase + 5 + buffer_cntr)
          (ReadEeprom eeprom (ram (outBase + 2) % 256 + buffer_cntr)))
    else (buffer_cntr, ram)

/-- The loop of `WRITE_EEDATA_CMD`,
`for(buffer_cntr=0; buffer_cntr < OutPacket->len; buffer_cntr++) WriteEeprom((BYTE)OutPacket->ADR.pAdr + buffer_cntr, OutPacket->data[buffer_cntr]);`,
reading the content `ram` of the section `usbram2`, with `outBase` the offset
of `*OutPacket`. The first argument is `0xFF - buffer_cntr`. The result is the
final `buffer_cntr` and the content of the EEPROM. -/
def writeEeLoop (ram : Nat → Nat) (outBase : Nat) :
    Nat → Nat → (Nat → Nat) → Nat × (Nat → Nat)
  | 0, buffer_cntr, eeprom => (buffer_cntr, eeprom)
  | n + 1, buffer_cntr, eeprom =>
    if buffer_cntr < ram (outBase + 1) % 256 then
      writeEeLoop ram outBase n (buffer_cntr + 1)
        (WriteEeprom eeprom (ram (outBase + 2) % 256 + buffer_cntr)
          (ram (outBase + 5 + buffer_cntr)))
    else (buffer_cntr, eeprom)

/-- The `switch ( cmd )` statement of `ServiceRequests`. The result is the value
of `num_return_bytes` after the statement, or `none` when `Reset()` was called,
which does not return. `sd` holds the card parameters read by `INFO_CMD`. -/
def handleCmd (cfg : UsbConfig) (sd : SdState) (st : UsbState) : Option Nat × UsbState :=
  let cmd := st.OutBuffer st.OutPacket 0 % 256
  let inBase := st.InPacket * cfg.USBGEN_EP_SIZE
  let outBase := (2 + st.OutPacket) * cfg.USBGEN_EP_SIZE
  let num_return_bytes := 0
  if cmd = cfg.ID_BOARD_CMD then
    let st := { st with blink_counter := 50 }
    let pkt := storeByte (st.InBuffer st.InPacket) 0 cmd
    let st := { st with InBuffer := setPacket st.InBuffer st.InPacket pkt }
    (some 1, st)
  else if cmd = cfg.INFO_CMD then
    let pkt := st.InBuffer st.InPacket
    let pkt := storeDword pkt 0 sd.numBlocks
    let pkt := storeWord pkt 2 sd.rdBlockSize
    let pkt := storeWord pkt 3 sd.wrBlockSize
    let pkt := storeWord pkt 4 sd.eraseSize
    (some 16, { st with InBuffer := setPacket st.InBuffer st.InPacket pkt })
  else if cmd = cfg.READ_EEDATA_CMD then
    let ram := storeByte (usbRam cfg st) inBase cmd
    let (buffer_cntr, ram) := readEeLoop st.eeprom inBase outBase 0xFF 0 ram
    let st := setUsbRam cfg st ram
    let st := { st with buffer_cntr := buffer_cntr }
    (some ((st.buffer_cntr + 5) % 256), st)
  else if cmd = cfg.WRITE_EEDATA_CMD then
    let pkt := storeByte (st.InBuffer st.InPacket) 0 cmd
    let st := { st with InBuffer := setPacket st.InBuffer st.InPacket pkt }
    let (buffer_cntr, eeprom) := writeEeLoop (usbRam cfg st) outBase 0xFF 0 st.eeprom
    let st := { st with eeprom := eeprom, buffer_cntr := buffer_cntr }
    (some 1, st)
  else if cmd = cfg.RESET_CMD then
    let st := { st with log := st.log ++ [UsbEvent.usbDisable] }
    let st := { st with log := st.log ++ [UsbEvent.reset] }
    (none, st)
  else
    (some num_return_bytes, st)

/-- The function `ServiceRequests`. The wait
`while ( USBHandleBusy( InHandle[InIndex] ) )` changes no variable and is taken
to end. -/
def ServiceRequests (cfg : UsbConfig) (sd : SdState) (st : UsbState) : UsbState :=
  if st.outBusy st.OutIndex then st
  else
    let st := { st with OutPacket := st.OutIndex }
    let st := { st with OutPacketLength := st.outLength st.OutIndex }
    let st := { st with blink_counter := NUM_ACTIVITY_BLINKS }
    match handleCmd cfg sd st with
    | (none, st) => st
    | (some num_return_bytes, st) =>
      let st := { st with log := st.log ++ [UsbEvent.genRead st.OutIndex] }
      let st := { st with OutIndex := (st.OutIndex ^^^ 1) % 256 }
      if num_return_bytes ≠ 0 then
        let frame := (List.range num_return_bytes).map (st.InBuffer st.InPacket)
        let st := { st with log := st.log ++ [UsbEvent.genWrite frame] }
        let st := { st with InIndex := (st.InIndex ^^^ 1) % 256 }
        { st with InPacket := st.InIndex }
      else st

/-! ## Test benches -/

/-- A response stream given by its first bytes; afterwards the bus idles at `0xFF`. -/
def streamOf (bytes : List Nat) : Nat → Nat :=
  fun k => bytes.getD k 0xFF

/-- A fresh SPI port answering with the given stream. -/
def spiOf (resp : Nat → Nat) : Spi :=
  { resp := resp, pos := 0, log := [] }

/-- The power-up state of the driver on a port answering with the given stream. -/
def powerUp (resp : Nat → Nat) : SdState :=
  { numBlocks := 0, wrBlockSize := 0, rdBlockSize := 0, eraseSize := 0,
    currSdBlockStatus := { isOpen := false, write := false, read := false, blockIdx := 0, ptr := 0 },
    spi := spiOf resp }

/-! ## Vocabulary for statements about the port -/

/-- The byte the `k`-th next `ReadSPI()` call returns (counted from 0). -/
def upcoming (spi : Spi) (k : Nat) : Nat := spi.resp (spi.pos + k) % 256

/-- The port `spi2` answers with the same stream as `spi1` and has made exactly
`d` more `ReadSPI()` calls. -/
def Advanced (spi1 spi2 : Spi) (d : Nat) : Prop :=
  spi2.resp = spi1.resp ∧ spi2.pos = spi1.pos + d

/-- The number of times the command byte of `cmd` has been written to the port. -/
def sent (cmd : Nat) (spi : Spi) : Nat :=
  spi.log.count (SpiEvent.write ((cmd ||| 0x40) % 256))

/-- Byte `i` of the CSD register as `GetSdParameters` reads it in state `s`: the
`i`-th read after the `SEND_CSD` handshake. -/
def csdRead (s : SdState) (i : Nat) : Nat :=
  upcoming (PrepSdForDataIo SEND_CSD 0 s.spi).2 i

/-- A driver state with a card of 8 blocks of 512 bytes, block 3 open for
writing, on a port answering with the given stream. -/
def cardState (resp : Nat → Nat) : SdState :=
  { numBlocks := 8, wrBlockSize := 512, rdBlockSize := 512, eraseSize := 0x12,
    currSdBlockStatus := { isOpen := true, write := true, read := false, blockIdx := 3, ptr := 0 },
    spi := spiOf resp }

/-- A sample CSD register with the uniform-erase flag (bit `0x40` of byte 10) set. -/
def sampleCsd : List Nat :=
  [0x00, 0x26, 0x00, 0x32, 0x5F, 0x59, 0x83, 0xC8, 0xAD, 0xDB, 0xCF, 0xFF, 0xD2, 0x40, 0x40, 0xA5]

/-- A sample CSD register with the uniform-erase flag clear and the
erase-granularity field (low six bits of byte 10, top bit of byte 11) equal to 31. -/
def sampleCsdSectors : List Nat :=
  [0x00, 0x26, 0x00, 0x32, 0x5F, 0x59, 0x83, 0xC8, 0xAD, 0xDB, 0x8F, 0xFF, 0xD2, 0x40, 0x40, 0xA5]

/-- An all-zero CSD register: flag clear, erase-granularity field equal to 0. -/
def zeroCsd : List Nat :=
  [0, 0, 0, 0, 0, 0, 0, 0, 0, 0, 0, 0, 0, 0, 0, 0]

/-- The power-up state on a bus that answers `SEND_CSD` with status 0, the
data-start token and then the given register. -/
def csdBench (csd : List Nat) : SdState :=
  powerUp (streamOf ([0x00, 0xFE] ++ csd))

/-- The power-up state on a bus that answers `GO_IDLE_STATE` with `0x01`, the
first `APP_CMD` with `0x01`, the first `INIT_CARD` with `0x00`, and `SEND_CSD`
with status 0, the data-start token and the register `sampleCsd`. -/
def initBench : SdState :=
  powerUp (streamOf ([0x01, 0x01, 0x00, 0x00, 0xFE] ++ sampleCsd))

/-- Sample values for the constants of the missing headers. -/
def sampleConfig : UsbConfig :=
  { USBGEN_EP_SIZE := 64, ID_BOARD_CMD := 0x31, INFO_CMD := 0x32, READ_EEDATA_CMD := 0x04,
    WRITE_EEDATA_CMD := 0x05, RESET_CMD := 0xFF }

/-- The dispatcher state after `USBCBInitEP` once the host has delivered the
request `frame` into `OutBuffer[0]`; every byte of both response buffers is `fill`. -/
def usbBench (frame : List Nat) (fill : Nat) : UsbState :=
  { OutIndex := 0, OutPacket := 0, OutPacketLength := 0, InIndex := 0, InPacket := 0,
    InBuffer := fun _ _ => fill,
    OutBuffer := fun slot i => if slot = 0 then frame.getD i 0 else 0,
    outBusy := fun slot => slot != 0,
    outLength := fun _ => 64,
    eeprom := fun a => a,
    buffer_cntr := 0, blink_counter := 0, log := [] }

/-- A CSD register with the largest capacity fields and read-block exponent 15. -/
def wideCsd : List Nat :=
  [0x00, 0x26, 0x00, 0x32, 0x5F, 0x5F, 0x83, 0xFF, 0xC0, 0x03, 0x80, 0x00, 0x03, 0xC0, 0x40, 0xA5]

/-- The power-up state on a bus that answers `SEND_CSD` with status 0, the
data-start token and the register `wideCsd`, and the next command with status 0
and the data-start token. -/
def wideBench : SdState :=
  powerUp (streamOf ([0x00, 0xFE] ++ wideCsd ++ [0x00, 0xFE]))

/-! ## Lemmas about the port -/

theorem upcoming_lt (spi : Spi) (k : Nat) : upcoming spi k < 256 :=
  Nat.mod_lt _ (by decide)

theorem Advanced.shift {spi1 spi2 : Spi} {d : Nat} (h : Advanced spi1 spi2 d) (k : Nat) :
    upcoming spi2 k = upcoming spi1 (d + k) := by
  unfold XuDL.upcoming
  rw [h.1, h.2, Nat.add_assoc]

theorem Advanced.refl (spi : Spi) : Advanced spi spi 0 := ⟨rfl, rfl⟩

theorem Advanced.trans {a b c : Spi} {d e : Nat} (h1 : Advanced a b d) (h2 : Advanced b c e) :
    Advanced a c (d + e) :=
  ⟨h2.1.trans h1.1, by rw [h2.2, h1.2, Nat.add_assoc]⟩

theorem WriteSPI_advanced (b : Nat) (spi : Spi) : Advanced spi (WriteSPI b spi) 0 := ⟨rfl, rfl⟩

theorem ReadSPI_fst (spi : Spi) : (ReadSPI spi).1 = upcoming spi 0 := rfl

theorem ReadSPI_advanced (spi : Spi) : Advanced spi (ReadSPI spi).2 1 := ⟨rfl, rfl⟩

theorem SendSdCmd_fst (cmd arg : Nat) (spi : Spi) : (SendSdCmd cmd arg spi).1 = upcoming spi 0 := by
  simp [SendSdCmd, ReadSPI, WriteSPI, setSD_CS, upcoming]

theorem SendSdCmd_advanced (cmd arg : Nat) (spi : Spi) :
    Advanced spi (SendSdCmd cmd arg spi).2 1 := by
  simp [SendSdCmd, ReadSPI, WriteSPI, setSD_CS, Advanced]

theorem SendSdCmd_log (cmd arg : Nat) (spi : Spi) :
    (SendSdCmd cmd arg spi).2.log = spi.log ++
      [SpiEvent.cs 0, SpiEvent.write 0xFF, SpiEvent.write ((cmd ||| 0x40) % 256),
       SpiEvent.write ((arg >>> 24) % 256), SpiEvent.write ((arg >>> 16) % 256),
       SpiEvent.write ((arg >>> 8) % 256), SpiEvent.write (arg % 256),
       SpiEvent.write 0x95, SpiEvent.write 0xFF, SpiEvent.read (upcoming spi 0)] := by
  simp [SendSdCmd, ReadSPI, WriteSPI, setSD_CS, upcoming]


/-! ## Bit arithmetic of the CSD decoding -/

theorem shl_or_eq_add {x y k : Nat} (h : y < 2 ^ k) : (x <<< k) ||| y = x * 2 ^ k + y := by
  rw [Nat.shiftLeft_eq, Nat.mul_comm, ← Nat.mul_add_lt_is_or h]

theorem mul_or_eq_add {x y : Nat} (k : Nat) (h : y < 2 ^ k) : (x * 2 ^ k) ||| y = x * 2 ^ k + y := by
  rw [Nat.mul_comm, ← Nat.mul_add_lt_is_or h]

theorem and_three_lt (x : Nat) : x &&& 3 < 4 := Nat.and_lt_two_pow x (by decide : 3 < 2 ^ 2)

theorem and_fifteen_lt (x : Nat) : x &&& 15 < 16 := Nat.and_lt_two_pow x (by decide : 15 < 2 ^ 4)

theorem shr_six_lt {x : Nat} (h : x < 256) : x >>> 6 < 4 := by
  rw [Nat.shiftRight_eq_div_pow]; omega

theorem shr_seven_lt {x : Nat} (h : x < 256) : x >>> 7 < 2 := by
  rw [Nat.shiftRight_eq_div_pow]; omega

/-- The value of the 16-bit variable `c_size` after its five assignments. -/
theorem c_size_eq {a b c : Nat} (hb : b < 256) (hc : c < 256) :
    (((((a &&& 3) <<< 8) % 2 ^ 16 ||| b) <<< 2) % 2 ^ 16 ||| (c >>> 6))
      = ((a &&& 3) <<< 10) ||| (b <<< 2) ||| (c >>> 6) ∧
    (((a &&& 3) <<< 10) ||| (b <<< 2) ||| (c >>> 6)) < 2 ^ 12 := by
  have ha := and_three_lt a
  have hc6 := shr_six_lt hc
  have e1 : ((a &&& 3) <<< 8) % 2 ^ 16 ||| b = (a &&& 3) * 256 + b := by
    rw [Nat.shiftLeft_eq, Nat.mod_eq_of_lt (by omega)]
    exact mul_or_eq_add 8 hb
  have e2 : (((a &&& 3) * 256 + b) <<< 2) % 2 ^ 16 ||| (c >>> 6)
      = ((a &&& 3) * 256 + b) * 4 + c >>> 6 := by
    rw [Nat.shiftLeft_eq, Nat.mod_eq_of_lt (by omega)]
    exact mul_or_eq_add 2 hc6
  have e3 : ((a &&& 3) <<< 10) ||| (b <<< 2) = ((a &&& 3) * 256 + b) * 4 := by
    have hb4 : b <<< 2 < 2 ^ 10 := by rw [Nat.shiftLeft_eq]; omega
    rw [shl_or_eq_add hb4, Nat.shiftLeft_eq]; omega
  have e4 : ((a &&& 3) * 256 + b) * 4 ||| (c >>> 6) = ((a &&& 3) * 256 + b) * 4 + c >>> 6 :=
    mul_or_eq_add 2 hc6
  rw [e1, e2, e3, e4]
  constructor
  · rfl
  · omega

theorem decodeCsd_numBlocks (csd : Nat → Nat) (h : ∀ i, csd i < 256) :
    (decodeCsd csd).numBlocks =
      ((((csd 6 &&& 3) <<< 10) ||| (csd 7 <<< 2) ||| (csd 8 >>> 6)) + 1) *
        2 ^ ((((csd 9 &&& 3) <<< 1) ||| (csd 10 >>> 7)) + 2) ∧
    (((csd 6 &&& 3) <<< 10) ||| (csd 7 <<< 2) ||| (csd 8 >>> 6)) < 2 ^ 12 ∧
    (((csd 9 &&& 3) <<< 1) ||| (csd 10 >>> 7)) < 2 ^ 3 ∧
    4 ≤ (decodeCsd csd).numBlocks ∧ (decodeCsd csd).numBlocks ≤ 2 ^ 21 := by
  obtain ⟨hc, hlt⟩ := c_size_eq (a := csd 6) (h 7) (h 8)
  have hm : (((csd 9 &&& 3) <<< 1) ||| (csd 10 >>> 7)) < 2 ^ 3 := by
    rw [shl_or_eq_add (shr_seven_lt (h 10))]
    have := and_three_lt (csd 9)
    have := shr_seven_lt (h 10)
    omega
  generalize hC : (((csd 6 &&& 3) <<< 10) ||| (csd 7 <<< 2) ||| (csd 8 >>> 6)) = C at hc hlt ⊢
  generalize hM : (((csd 9 &&& 3) <<< 1) ||| (csd 10 >>> 7)) = M at hm ⊢
  have hpow : 2 ^ (M + 2) ≤ 2 ^ 9 := Nat.pow_le_pow_right (by decide) (by omega)
  have hpos : 4 ≤ 2 ^ (M + 2) := by
    have : 2 ^ 2 ≤ 2 ^ (M + 2) := Nat.pow_le_pow_right (by decide) (by omega)
    simpa using this
  have hprod : (C + 1) * 2 ^ (M + 2) ≤ 2 ^ 12 * 2 ^ 9 := Nat.mul_le_mul (by omega) hpow
  have hlow : 1 * 4 ≤ (C + 1) * 2 ^ (M + 2) := Nat.mul_le_mul (by omega) hpos
  have hval : (decodeCsd csd).numBlocks = (C + 1) * 2 ^ (M + 2) := by
    show (((_ + 1) % 2 ^ 32) <<< (_ + 2)) % 2 ^ 32 = _
    rw [hc, hM, Nat.mod_eq_of_lt (a := C + 1) (by omega), Nat.shiftLeft_eq,
      Nat.mod_eq_of_lt (by omega)]
  refine ⟨hval, hlt, hm, ?_, ?_⟩
  · rw [hval]; omega
  · rw [hval]; omega

theorem decodeCsd_blockSizes (csd : Nat → Nat) (h : ∀ i, csd i < 256) :
    (decodeCsd csd).wrBlockSize = 2 ^ (((csd 12 &&& 3) <<< 2) ||| (csd 13 >>> 6)) ∧
    (((csd 12 &&& 3) <<< 2) ||| (csd 13 >>> 6)) < 16 ∧
    (decodeCsd csd).rdBlockSize = 2 ^ (csd 5 &&& 0x0F) ∧
    (csd 5 &&& 0x0F) < 16 := by
  have hw : (((csd 12 &&& 3) <<< 2) ||| (csd 13 >>> 6)) < 16 := by
    rw [shl_or_eq_add (shr_six_lt (h 13))]
    have := and_three_lt (csd 12)
    have := shr_six_lt (h 13)
    omega
  have hr := and_fifteen_lt (csd 5)
  have pw : ∀ e, e < 16 → (1 <<< e) % 2 ^ 16 = 2 ^ e := by
    intro e he
    rw [Nat.shiftLeft_eq, Nat.one_mul]
    apply Nat.mod_eq_of_lt
    exact Nat.pow_lt_pow_right (by decide) he
  exact ⟨pw _ hw, hw, pw _ hr, hr⟩

theorem two_pow_bounds {e : Nat} (he : e < 16) : 1 ≤ 2 ^ e ∧ 2 ^ e ≤ 32768 := by
  constructor
  · exact Nat.one_le_two_pow
  · have : 2 ^ e ≤ 2 ^ 15 := Nat.pow_le_pow_right (by decide) (by omega)
    simpa using this

theorem decodeCsd_eraseSize (csd : Nat → Nat) :
    (decodeCsd csd).eraseSize = if csd 10 &&& 0x40 ≠ 0 then 0x45 else 0x12 := rfl

theorem decodeCsd_congr (f g : Nat → Nat)
    (h : ∀ i, 5 ≤ i → i ≤ 13 → f i = g i) : decodeCsd f = decodeCsd g := by
  simp only [decodeCsd, h 5 (by omega) (by omega), h 6 (by omega) (by omega),
    h 7 (by omega) (by omega), h 8 (by omega) (by omega), h 9 (by omega) (by omega),
    h 10 (by omega) (by omega), h 11 (by omega) (by omega), h 12 (by omega) (by omega),
    h 13 (by omega) (by omega)]

theorem readBuff_spec (n : Nat) (spi : Spi) :
    (readBuff n spi).1 = (List.range n).map (upcoming spi) ∧
    Advanced spi (readBuff n spi).2 n := by
  induction n generalizing spi with
  | zero => exact ⟨rfl, Advanced.refl spi⟩
  | succ n ih =>
    obtain ⟨h1, h2⟩ := ih (ReadSPI spi).2
    have hadv := ReadSPI_advanced spi
    constructor
    · show (ReadSPI spi).1 :: (readBuff n (ReadSPI spi).2).1 = _
      rw [h1, List.range_succ_eq_map, List.map_cons, List.map_map, ReadSPI_fst]
      congr 1
      apply List.map_congr_left
      intro k _
      simp only [Function.comp, hadv.shift, Nat.succ_eq_add_one, Nat.add_comm]
    · show Advanced spi (readBuff n (ReadSPI spi).2).2 (n + 1)
      have := hadv.trans h2
      rwa [Nat.add_comm] at this

theorem readBuff_getD (spi : Spi) (i : Nat) (hi : i < 16) :
    (readBuff 16 spi).1.getD i 0 = upcoming spi i := by
  rw [(readBuff_spec 16 spi).1]
  simp [List.getD_eq_getElem?_getD, hi]

/-- `GetSdParameters` after a successful handshake. -/
theorem GetSdParameters_ok (s : SdState) (h : (PrepSdForDataIo SEND_CSD 0 s.spi).1 = 0) :
    (GetSdParameters s).1 = 0 ∧
    (GetSdParameters s).2.numBlocks
      = (decodeCsd (upcoming (PrepSdForDataIo SEND_CSD 0 s.spi).2)).numBlocks ∧
    (GetSdParameters s).2.wrBlockSize
      = (decodeCsd (upcoming (PrepSdForDataIo SEND_CSD 0 s.spi).2)).wrBlockSize ∧
    (GetSdParameters s).2.rdBlockSize
      = (decodeCsd (upcoming (PrepSdForDataIo SEND_CSD 0 s.spi).2)).rdBlockSize ∧
    (GetSdParameters s).2.eraseSize
      = (decodeCsd (upcoming (PrepSdForDataIo SEND_CSD 0 s.spi).2)).eraseSize ∧
    (GetSdParameters s).2.currSdBlockStatus = s.currSdBlockStatus ∧
    Advanced (PrepSdForDataIo SEND_CSD 0 s.spi).2 (GetSdParameters s).2.spi 16 := by
  have hc : decodeCsd (fun i => (readBuff 16 (PrepSdForDataIo SEND_CSD 0 s.spi).2).1.getD i 0)
      = decodeCsd (upcoming (PrepSdForDataIo SEND_CSD 0 s.spi).2) :=
    decodeCsd_congr _ _ (fun i _ hi => readBuff_getD _ i (by omega))
  have hadv := (readBuff_spec 16 (PrepSdForDataIo SEND_CSD 0 s.spi).2).2
  simp only [GetSdParameters, h, ne_eq, not_true_eq_false, ite_false, hc]
  simpa using hadv

theorem GetSdParameters_fail (s : SdState) (h : (PrepSdForDataIo SEND_CSD 0 s.spi).1 ≠ 0) :
    GetSdParameters s = (1, { s with spi := (PrepSdForDataIo SEND_CSD 0 s.spi).2 }) := by
  simp [GetSdParameters, h]

/-! ## The loops of `PrepSdForDataIo` -/

theorem waitStatus_zero (n : Nat) (spi : Spi) : waitStatus n 0 spi = (none, spi) := by
  cases n <;> simp [waitStatus]

theorem waitStatus_succ (m r : Nat) (spi : Spi) (hr : r ≠ 0) :
    waitStatus (m + 1) r spi = waitStatus m (ReadSPI spi).1 (ReadSPI spi).2 := by
  rw [waitStatus]; simp [hr]

theorem waitStatus_spec (n r : Nat) (spi : Spi) (hr : r ≠ 0) :
    (∃ k, k < n ∧ upcoming spi k = 0 ∧ (∀ i, i < k → upcoming spi i ≠ 0) ∧
        (waitStatus n r spi).1 = none ∧ Advanced spi (waitStatus n r spi).2 (k + 1)) ∨
    ((∀ i, i < n → upcoming spi i ≠ 0) ∧ (waitStatus n r spi).1 = some 1 ∧
        Advanced spi (waitStatus n r spi).2 n) := by
  induction n generalizing r spi with
  | zero =>
    right
    refine ⟨fun i hi => absurd hi (Nat.not_lt_zero i), ?_, ?_⟩
    · simp [waitStatus, hr]
    · simp [waitStatus, hr, Advanced]
  | succ m ih =>
    rw [waitStatus_succ m r spi hr]
    have hadv := ReadSPI_advanced spi
    by_cases h0 : upcoming spi 0 = 0
    · left
      refine ⟨0, Nat.succ_pos m, h0, fun i hi => absurd hi (Nat.not_lt_zero i), ?_, ?_⟩
      · rw [ReadSPI_fst, h0, waitStatus_zero]
      · rw [ReadSPI_fst, h0, waitStatus_zero]; exact hadv
    · rcases ih (ReadSPI spi).1 (ReadSPI spi).2 (by rw [ReadSPI_fst]; exact h0) with
        ⟨k, hk, hz, hnz, hres, hpos⟩ | ⟨hnz, hres, hpos⟩
      · left
        refine ⟨k + 1, Nat.succ_lt_succ hk, ?_, ?_, hres, ?_⟩
        · rw [← hz, hadv.shift, Nat.add_comm]
        · intro i hi
          cases i with
          | zero => exact h0
          | succ j =>
            have := hnz j (Nat.lt_of_succ_lt_succ hi)
            rwa [hadv.shift, Nat.add_comm] at this
        · have := hadv.trans hpos
          rwa [Nat.add_comm] at this
      · right
        refine ⟨?_, hres, ?_⟩
        · intro i hi
          cases i with
          | zero => exact h0
          | succ j =>
            have := hnz j (Nat.lt_of_succ_lt_succ hi)
            rwa [hadv.shift, Nat.add_comm] at this
        · have := hadv.trans hpos
          rwa [Nat.add_comm] at this

theorem pollToken_spec (m : Nat) (spi : Spi) :
    (∃ j, j < m ∧ upcoming spi j ≠ 0xFF ∧ (∀ i, i < j → upcoming spi i = 0xFF) ∧
        (pollToken m spi).1 = some (if upcoming spi j = 0xFE then 0 else upcoming spi j) ∧
        Advanced spi (pollToken m spi).2 (j + 1)) ∨
    ((∀ i, i < m → upcoming spi i = 0xFF) ∧ (pollToken m spi).1 = none ∧
        Advanced spi (pollToken m spi).2 m) := by
  induction m generalizing spi with
  | zero =>
    right
    exact ⟨fun i hi => absurd hi (Nat.not_lt_zero i), rfl, Advanced.refl spi⟩
  | succ m ih =>
    have hadv := ReadSPI_advanced spi
    by_cases hFE : upcoming spi 0 = 0xFE
    · left
      have e : pollToken (m + 1) spi = (some 0, (ReadSPI spi).2) := by
        rw [pollToken]; simp [ReadSPI_fst, hFE]
      refine ⟨0, Nat.succ_pos m, by rw [hFE]; decide,
        fun i hi => absurd hi (Nat.not_lt_zero i), ?_, ?_⟩
      · rw [e]; simp [hFE]
      · rw [e]; exact hadv
    · by_cases hFF : upcoming spi 0 = 0xFF
      · have e : pollToken (m + 1) spi = pollToken m (ReadSPI spi).2 := by
          rw [pollToken]; simp [ReadSPI_fst, hFF]
        rw [e]
        rcases ih (ReadSPI spi).2 with ⟨j, hj, hne, hidle, hres, hpos⟩ | ⟨hidle, hres, hpos⟩
        · left
          refine ⟨j + 1, Nat.succ_lt_succ hj, ?_, ?_, ?_, ?_⟩
          · rwa [hadv.shift, Nat.add_comm] at hne
          · intro i hi
            cases i with
            | zero => exact hFF
            | succ t =>
              have := hidle t (Nat.lt_of_succ_lt_succ hi)
              rwa [hadv.shift, Nat.add_comm] at this
          · rw [hres, hadv.shift, Nat.add_comm]
          · have := hadv.trans hpos
            rwa [Nat.add_comm] at this
        · right
          refine ⟨?_, hres, ?_⟩
          · intro i hi
            cases i with
            | zero => exact hFF
            | succ t =>
              have := hidle t (Nat.lt_of_succ_lt_succ hi)
              rwa [hadv.shift, Nat.add_comm] at this
          · have := hadv.trans hpos
            rwa [Nat.add_comm] at this
      · left
        have e : pollToken (m + 1) spi = (some (upcoming spi 0), (ReadSPI spi).2) := by
          rw [pollToken]; simp [ReadSPI_fst, hFE, hFF]
        refine ⟨0, Nat.succ_pos m, hFF, fun i hi => absurd hi (Nat.not_lt_zero i), ?_, ?_⟩
        · rw [e]; simp [hFE]
        · rw [e]; exact hadv

theorem PrepSdForDataIo_eq (cmd arg : Nat) (spi : Spi) :
    PrepSdForDataIo cmd arg spi =
      match (waitStatus 0xFE (SendSdCmd cmd arg spi).1 (SendSdCmd cmd arg spi).2).1 with
      | some r => (r, (waitStatus 0xFE (SendSdCmd cmd arg spi).1 (SendSdCmd cmd arg spi).2).2)
      | none =>
        match (pollToken 0xFF
            (waitStatus 0xFE (SendSdCmd cmd arg spi).1 (SendSdCmd cmd arg spi).2).2).1 with
        | some r => (r, (pollToken 0xFF
            (waitStatus 0xFE (SendSdCmd cmd arg spi).1 (SendSdCmd cmd arg spi).2).2).2)
        | none => (0x80, (pollToken 0xFF
            (waitStatus 0xFE (SendSdCmd cmd arg spi).1 (SendSdCmd cmd arg spi).2).2).2) := by
  unfold PrepSdForDataIo
  rcases hw : waitStatus 0xFE (SendSdCmd cmd arg spi).1 (SendSdCmd cmd arg spi).2 with ⟨w1, w2⟩
  cases w1 with
  | some r => simp [hw]
  | none =>
    rcases hp : pollToken 0xFF w2 with ⟨p1, p2⟩
    cases p1 <;> simp [hw, hp]

/-- The status phase of `PrepSdForDataIo`: the R1 reply and its re-reads. -/
theorem statusPhase_spec (cmd arg : Nat) (spi : Spi) :
    (∃ k, k < 255 ∧ upcoming spi k = 0 ∧ (∀ i, i < k → upcoming spi i ≠ 0) ∧
        (waitStatus 0xFE (SendSdCmd cmd arg spi).1 (SendSdCmd cmd arg spi).2).1 = none ∧
        Advanced spi (waitStatus 0xFE (SendSdCmd cmd arg spi).1 (SendSdCmd cmd arg spi).2).2
          (k + 1)) ∨
    ((∀ i, i < 255 → upcoming spi i ≠ 0) ∧
        (waitStatus 0xFE (SendSdCmd cmd arg spi).1 (SendSdCmd cmd arg spi).2).1 = some 1 ∧
        Advanced spi (waitStatus 0xFE (SendSdCmd cmd arg spi).1 (SendSdCmd cmd arg spi).2).2
          255) := by
  have hadv := SendSdCmd_advanced cmd arg spi
  by_cases h0 : upcoming spi 0 = 0
  · left
    refine ⟨0, by decide, h0, fun i hi => absurd hi (Nat.not_lt_zero i), ?_, ?_⟩
    · rw [SendSdCmd_fst, h0, waitStatus_zero]
    · rw [SendSdCmd_fst, h0, waitStatus_zero]; exact hadv
  · rcases waitStatus_spec 0xFE (SendSdCmd cmd arg spi).1 (SendSdCmd cmd arg spi).2
        (by rw [SendSdCmd_fst]; exact h0) with ⟨k, hk, hz, hnz, hres, hpos⟩ | ⟨hnz, hres, hpos⟩
    · left
      refine ⟨k + 1, by omega, ?_, ?_, hres, ?_⟩
      · rw [← hz, hadv.shift, Nat.add_comm]
      · intro i hi
        cases i with
        | zero => exact h0
        | succ j =>
          have := hnz j (Nat.lt_of_succ_lt_succ hi)
          rwa [hadv.shift, Nat.add_comm] at this
      · have := hadv.trans hpos
        rwa [Nat.add_comm] at this
    · right
      refine ⟨?_, hres, ?_⟩
      · intro i hi
        cases i with
        | zero => exact h0
        | succ j =>
          have := hnz j (by omega)
          rwa [hadv.shift, Nat.add_comm] at this
      · exact hadv.trans hpos

theorem first_unique {P : Nat → Prop} {k k2 : Nat} (hk : P k) (hk2 : P k2)
    (hlt : ∀ i, i < k → ¬ P i) (hlt2 : ∀ i, i < k2 → ¬ P i) : k = k2 := by
  rcases Nat.lt_trichotomy k k2 with h | h | h
  · exact absurd hk (hlt2 k h)
  · exact h
  · exact absurd hk2 (hlt k2 h)

/-- Every run of `PrepSdForDataIo` is of one of three kinds: the status never
became zero, the status became zero and the bus then idled for 255 polls, or the
status became zero and some poll read a byte other than `0xFF`. -/
theorem PrepSdForDataIo_cases (cmd arg : Nat) (spi : Spi) :
    ((∀ i, i < 255 → upcoming spi i ≠ 0) ∧ (PrepSdForDataIo cmd arg spi).1 = 1 ∧
        Advanced spi (PrepSdForDataIo cmd arg spi).2 255) ∨
    (∃ k, k < 255 ∧ upcoming spi k = 0 ∧ (∀ i, i < k → upcoming spi i ≠ 0) ∧
      (((∀ j, j < 255 → upcoming spi (k + 1 + j) = 0xFF) ∧
          (PrepSdForDataIo cmd arg spi).1 = 0x80 ∧
          Advanced spi (PrepSdForDataIo cmd arg spi).2 (k + 1 + 255)) ∨
        (∃ j, j < 255 ∧ upcoming spi (k + 1 + j) ≠ 0xFF ∧
          (∀ i, i < j → upcoming spi (k + 1 + i) = 0xFF) ∧
          (PrepSdForDataIo cmd arg spi).1 =
            (if upcoming spi (k + 1 + j) = 0xFE then 0 else upcoming spi (k + 1 + j)) ∧
          Advanced spi (PrepSdForDataIo cmd arg spi).2 (k + 1 + (j + 1))))) := by
  rw [PrepSdForDataIo_eq]
  rcases statusPhase_spec cmd arg spi with ⟨k, hk, hz, hnz, hres, hpos⟩ | ⟨hnz, hres, hpos⟩
  · right
    refine ⟨k, hk, hz, hnz, ?_⟩
    rw [hres]
    rcases pollToken_spec 0xFF
        (waitStatus 0xFE (SendSdCmd cmd arg spi).1 (SendSdCmd cmd arg spi).2).2 with
      ⟨j, hj, hne, hidle, hr, hp⟩ | ⟨hidle, hr, hp⟩
    · right
      rw [hr]
      refine ⟨j, hj, ?_, ?_, ?_, hpos.trans hp⟩
      · rwa [hpos.shift] at hne
      · intro i hi
        have := hidle i hi
        rwa [hpos.shift] at this
      · simp only [hpos.shift]
    · left
      rw [hr]
      refine ⟨?_, rfl, hpos.trans hp⟩
      intro i hi
      have := hidle i hi
      rwa [hpos.shift] at this
  · left
    rw [hres]
    exact ⟨hnz, rfl, hpos⟩

/-- The exact condition under which `PrepSdForDataIo` returns 0. -/
theorem PrepSdForDataIo_eq_zero_iff (cmd arg : Nat) (spi : Spi) :
    (PrepSdForDataIo cmd arg spi).1 = 0 ↔
      ∃ k, k < 255 ∧ upcoming spi k = 0 ∧ (∀ i, i < k → upcoming spi i ≠ 0) ∧
        ∃ j, j < 255 ∧ (upcoming spi (k + 1 + j) = 0xFE ∨ upcoming spi (k + 1 + j) = 0) ∧
          ∀ i, i < j → upcoming spi (k + 1 + i) = 0xFF := by
  constructor
  · intro h
    rcases PrepSdForDataIo_cases cmd arg spi with ⟨_, hr, _⟩ | ⟨k, hk, hz, hnz, hc⟩
    · rw [hr] at h; exact absurd h (by decide)
    · rcases hc with ⟨_, hr, _⟩ | ⟨j, hj, hne, hidle, hr, _⟩
      · rw [hr] at h; exact absurd h (by decide)
      · refine ⟨k, hk, hz, hnz, j, hj, ?_, hidle⟩
        rw [hr] at h
        by_cases hFE : upcoming spi (k + 1 + j) = 0xFE
        · exact Or.inl hFE
        · right; simpa [hFE] using h
  · rintro ⟨k, hk, hz, hnz, j, hj, htok, hidle⟩
    rcases PrepSdForDataIo_cases cmd arg spi with ⟨hall, _, _⟩ | ⟨k2, hk2, hz2, hnz2, hc⟩
    · exact absurd hz (hall k hk)
    · have hkk : k = k2 := first_unique (P := fun i => upcoming spi i = 0) hz hz2 hnz hnz2
      subst hkk
      have hneFF : upcoming spi (k + 1 + j) ≠ 0xFF := by
        rcases htok with h | h <;> rw [h] <;> decide
      rcases hc with ⟨hall, _, _⟩ | ⟨j2, hj2, hne2, hidle2, hr, _⟩
      · exact absurd (hall j hj) hneFF
      · have hjj : j = j2 :=
          first_unique (P := fun i => upcoming spi (k + 1 + i) ≠ 0xFF) hneFF hne2
            (fun i hi => not_not.mpr (hidle i hi)) (fun i hi => not_not.mpr (hidle2 i hi))
        subst hjj
        rw [hr]
        rcases htok with h | h
        · simp [h]
        · simp [h]

/-! ## The loops of `InitSd` -/

theorem wakeUp_advanced (n : Nat) (spi : Spi) : Advanced spi (wakeUp n spi) 0 := by
  induction n generalizing spi with
  | zero => exact Advanced.refl spi
  | succ n ih => exact (WriteSPI_advanced 0xFF spi).trans (ih _)

theorem goIdle_spec (n : Nat) (spi : Spi) :
    (∃ k, k < n + 1 ∧ upcoming spi k = 1 ∧ (∀ i, i < k → upcoming spi i ≠ 1) ∧
        (goIdle n spi).1 = none ∧ Advanced spi (goIdle n spi).2 (k + 1)) ∨
    ((∀ i, i < n + 1 → upcoming spi i ≠ 1) ∧ (goIdle n spi).1 = some 1 ∧
        Advanced spi (goIdle n spi).2 (n + 1)) := by
  induction n generalizing spi with
  | zero =>
    have hadv := SendSdCmd_advanced GO_IDLE_STATE 0 spi
    by_cases h1 : upcoming spi 0 = 1
    · left
      have e : goIdle 0 spi = (none, (SendSdCmd GO_IDLE_STATE 0 spi).2) := by
        rw [goIdle]; simp [SendSdCmd_fst, h1]
      exact ⟨0, by decide, h1, fun i hi => absurd hi (Nat.not_lt_zero i), by rw [e], by rw [e]; exact hadv⟩
    · right
      have e : goIdle 0 spi = (some 1, (SendSdCmd GO_IDLE_STATE 0 spi).2) := by
        rw [goIdle]; simp [SendSdCmd_fst, h1]
      refine ⟨?_, by rw [e], by rw [e]; exact hadv⟩
      intro i hi
      have : i = 0 := by omega
      subst this; exact h1
  | succ n ih =>
    have hadv := SendSdCmd_advanced GO_IDLE_STATE 0 spi
    by_cases h1 : upcoming spi 0 = 1
    · left
      have e : goIdle (n + 1) spi = (none, (SendSdCmd GO_IDLE_STATE 0 spi).2) := by
        rw [goIdle]; simp [SendSdCmd_fst, h1]
      exact ⟨0, by omega, h1, fun i hi => absurd hi (Nat.not_lt_zero i), by rw [e], by rw [e]; exact hadv⟩
    · have e : goIdle (n + 1) spi = goIdle n (SendSdCmd GO_IDLE_STATE 0 spi).2 := by
        rw [goIdle]; simp [SendSdCmd_fst, h1]
      rw [e]
      rcases ih (SendSdCmd GO_IDLE_STATE 0 spi).2 with
        ⟨k, hk, hz, hnz, hres, hpos⟩ | ⟨hnz, hres, hpos⟩
      · left
        refine ⟨k + 1, Nat.succ_lt_succ hk, ?_, ?_, hres, ?_⟩
        · rwa [hadv.shift, Nat.add_comm] at hz
        · intro i hi
          cases i with
          | zero => exact h1
          | succ j =>
            have := hnz j (Nat.lt_of_succ_lt_succ hi)
            rwa [hadv.shift, Nat.add_comm] at this
        · have := hadv.trans hpos
          rwa [Nat.add_comm] at this
      · right
        refine ⟨?_, hres, ?_⟩
        · intro i hi
          cases i with
          | zero => exact h1
          | succ j =>
            have := hnz j (Nat.lt_of_succ_lt_succ hi)
            rwa [hadv.shift, Nat.add_comm] at this
        · have := hadv.trans hpos
          rwa [Nat.add_comm] at this

theorem upcoming_congr (spi : Spi) {a b : Nat} (h : a = b) : upcoming spi a = upcoming spi b := by
  rw [h]

/-- The `INIT_CARD` loop: the replies to `INIT_CARD` are the reads `0, 2, 4, ...`
after the loop is entered, the replies to the `APP_CMD` prefixes sent inside the
loop are the reads `1, 3, 5, ...`. -/
theorem initCard_spec (n : Nat) (spi : Spi) :
    (∃ k, k < n + 1 ∧ upcoming spi (2 * k) = 0 ∧
        (∀ i, i < k → upcoming spi (2 * i) ≠ 0 ∧ upcoming spi (2 * i + 1) ≠ 0xFF) ∧
        (initCard n spi).1 = none ∧ Advanced spi (initCard n spi).2 (2 * k + 1)) ∨
    (∃ k, k < n ∧ upcoming spi (2 * k + 1) = 0xFF ∧ upcoming spi (2 * k) ≠ 0 ∧
        (∀ i, i < k → upcoming spi (2 * i) ≠ 0 ∧ upcoming spi (2 * i + 1) ≠ 0xFF) ∧
        (initCard n spi).1 = some 3 ∧ Advanced spi (initCard n spi).2 (2 * k + 2)) ∨
    ((∀ i, i < n → upcoming spi (2 * i) ≠ 0 ∧ upcoming spi (2 * i + 1) ≠ 0xFF) ∧
        upcoming spi (2 * n) ≠ 0 ∧
        (initCard n spi).1 = some 2 ∧ Advanced spi (initCard n spi).2 (2 * n + 1)) := by
  induction n generalizing spi with
  | zero =>
    have hadv := SendSdCmd_advanced INIT_CARD 0 spi
    by_cases h0 : upcoming spi 0 = 0
    · left
      have e : initCard 0 spi = (none, (SendSdCmd INIT_CARD 0 spi).2) := by
        rw [initCard]; simp [SendSdCmd_fst, h0]
      exact ⟨0, by decide, h0, fun i hi => absurd hi (Nat.not_lt_zero i), by rw [e],
        by rw [e]; exact hadv⟩
    · right; right
      have e : initCard 0 spi = (some 2, (SendSdCmd INIT_CARD 0 spi).2) := by
        rw [initCard]; simp [SendSdCmd_fst, h0]
      exact ⟨fun i hi => absurd hi (Nat.not_lt_zero i), h0, by rw [e], by rw [e]; exact hadv⟩
  | succ n ih =>
    have hadv := SendSdCmd_advanced INIT_CARD 0 spi
    have hadv2 := SendSdCmd_advanced APP_CMD 0 (SendSdCmd INIT_CARD 0 spi).2
    have hadv12 := hadv.trans hadv2
    have ha : upcoming (SendSdCmd INIT_CARD 0 spi).2 0 = upcoming spi 1 := by
      rw [hadv.shift]
    by_cases h0 : upcoming spi 0 = 0
    · left
      have e : initCard (n + 1) spi = (none, (SendSdCmd INIT_CARD 0 spi).2) := by
        rw [initCard]; simp [SendSdCmd_fst, h0]
      exact ⟨0, by omega, h0, fun i hi => absurd hi (Nat.not_lt_zero i), by rw [e],
        by rw [e]; exact hadv⟩
    · by_cases hFF : upcoming spi 1 = 0xFF
      · right; left
        have e : initCard (n + 1) spi =
            (some 3, (SendSdCmd APP_CMD 0 (SendSdCmd INIT_CARD 0 spi).2).2) := by
          rw [initCard]; simp [SendSdCmd_fst, h0, ha, hFF]
        exact ⟨0, by omega, hFF, h0, fun i hi => absurd hi (Nat.not_lt_zero i), by rw [e],
          by rw [e]; exact hadv12⟩
      · have e : initCard (n + 1) spi =
            initCard n (SendSdCmd APP_CMD 0 (SendSdCmd INIT_CARD 0 spi).2).2 := by
          rw [initCard]; simp [SendSdCmd_fst, h0, ha, hFF]
        rw [e]
        have shift : ∀ x, upcoming (SendSdCmd APP_CMD 0 (SendSdCmd INIT_CARD 0 spi).2).2 x
            = upcoming spi (x + 2) := by
          intro x; rw [hadv12.shift]; exact upcoming_congr spi (by omega)
        have prev : ∀ k, (∀ i, i < k →
              upcoming (SendSdCmd APP_CMD 0 (SendSdCmd INIT_CARD 0 spi).2).2 (2 * i) ≠ 0 ∧
              upcoming (SendSdCmd APP_CMD 0 (SendSdCmd INIT_CARD 0 spi).2).2 (2 * i + 1) ≠ 0xFF) →
            ∀ i, i < k + 1 → upcoming spi (2 * i) ≠ 0 ∧ upcoming spi (2 * i + 1) ≠ 0xFF := by
          intro k hprev i hi
          cases i with
          | zero => exact ⟨h0, hFF⟩
          | succ j =>
            have := hprev j (Nat.lt_of_succ_lt_succ hi)
            rw [shift, shift] at this
            exact this
        rcases ih (SendSdCmd APP_CMD 0 (SendSdCmd INIT_CARD 0 spi).2).2 with
          ⟨k, hk, hz, hprev, hres, hpos⟩ | ⟨k, hk, hz, hnz, hprev, hres, hpos⟩ |
          ⟨hprev, hnz, hres, hpos⟩
        · left
          refine ⟨k + 1, Nat.succ_lt_succ hk, ?_, prev k hprev, hres, ?_⟩
          · rw [shift] at hz; exact hz
          · have := hadv12.trans hpos
            have e2 : 1 + 1 + (2 * k + 1) = 2 * (k + 1) + 1 := by omega
            rwa [e2] at this
        · right; left
          refine ⟨k + 1, Nat.succ_lt_succ hk, ?_, ?_, prev k hprev, hres, ?_⟩
          · rw [shift] at hz; exact hz
          · rw [shift] at hnz; exact hnz
          · have := hadv12.trans hpos
            have e2 : 1 + 1 + (2 * k + 2) = 2 * (k + 1) + 2 := by omega
            rwa [e2] at this
        · right; right
          refine ⟨prev n hprev, ?_, hres, ?_⟩
          · rw [shift] at hnz; exact hnz
          · have := hadv12.trans hpos
            have e2 : 1 + 1 + (2 * n + 1) = 2 * (n + 1) + 1 := by omega
            rwa [e2] at this

theorem InitSd_eq (s : SdState) (P0 : Spi)
    (hP0 : P0 = wakeUp 10 (OpenSPI SpiClock.SPI_FOSC_64 (setSD_CS 1 (SD_CS_INIT s.spi)))) :
    InitSd s =
      match (goIdle 0xFE P0).1 with
      | some r => (r, { s with spi := (goIdle 0xFE P0).2 })
      | none =>
        if (SendSdCmd APP_CMD 0 (OpenSPI SpiClock.SPI_FOSC_4 (goIdle 0xFE P0).2)).1 = 0xFF then
          (3, { s with spi := (SendSdCmd APP_CMD 0 (OpenSPI SpiClock.SPI_FOSC_4 (goIdle 0xFE P0).2)).2 })
        else
          match (initCard 0xFE
              (SendSdCmd APP_CMD 0 (OpenSPI SpiClock.SPI_FOSC_4 (goIdle 0xFE P0).2)).2).1 with
          | some r => (r, { s with spi := (initCard 0xFE
              (SendSdCmd APP_CMD 0 (OpenSPI SpiClock.SPI_FOSC_4 (goIdle 0xFE P0).2)).2).2 })
          | none =>
            (if (GetSdParameters { s with spi := (initCard 0xFE
                (SendSdCmd APP_CMD 0 (OpenSPI SpiClock.SPI_FOSC_4 (goIdle 0xFE P0).2)).2).2 }).1 ≠ 0
              then 4 else 0,
             (GetSdParameters { s with spi := (initCard 0xFE
                (SendSdCmd APP_CMD 0 (OpenSPI SpiClock.SPI_FOSC_4 (goIdle 0xFE P0).2)).2).2 }).2) := by
  subst hP0
  unfold InitSd
  rcases hg : goIdle 0xFE (wakeUp 10 (OpenSPI SpiClock.SPI_FOSC_64 (setSD_CS 1 (SD_CS_INIT s.spi))))
    with ⟨g1, g2⟩
  cases g1 with
  | some r => simp [hg]
  | none =>
    simp only [hg]
    by_cases ha : (SendSdCmd APP_CMD 0 (OpenSPI SpiClock.SPI_FOSC_4 g2)).1 = 0xFF
    · simp [ha]
    · simp only [ha, ite_false]
      rcases hi : initCard 0xFE (SendSdCmd APP_CMD 0 (OpenSPI SpiClock.SPI_FOSC_4 g2)).2
        with ⟨i1, i2⟩
      cases i1 with
      | some r => simp [hi]
      | none =>
        simp only [hi]
        by_cases hgp : (GetSdParameters { s with spi := i2 }).1 = 0
        · simp [hgp]
        · simp [hgp]

theorem OpenSPI_advanced (c : SpiClock) (spi : Spi) : Advanced spi (OpenSPI c spi) 0 := ⟨rfl, rfl⟩

theorem InitSd_prologue_advanced (spi : Spi) :
    Advanced spi (wakeUp 10 (OpenSPI SpiClock.SPI_FOSC_64 (setSD_CS 1 (SD_CS_INIT spi)))) 0 := by
  have h := wakeUp_advanced 10 (OpenSPI SpiClock.SPI_FOSC_64 (setSD_CS 1 (SD_CS_INIT spi)))
  exact ⟨h.1, h.2⟩

/-- Every run of `InitSd` is of one of five kinds. With `k` the index of the
first read that answers `GO_IDLE_STATE` with `0x01`, the reply to the `m`-th
`APP_CMD` is read number `k + 1 + 2 * m` and the reply to the `m`-th `INIT_CARD`
is read number `k + 1 + 2 * m + 1` (all counted from 0). -/
theorem InitSd_cases (s : SdState) :
    ((∀ i, i < 255 → upcoming s.spi i ≠ 1) ∧
        ∃ spi2, InitSd s = (1, { s with spi := spi2 }) ∧ Advanced s.spi spi2 255) ∨
    (∃ k, k < 255 ∧ upcoming s.spi k = 1 ∧ (∀ i, i < k → upcoming s.spi i ≠ 1) ∧
      ((∃ m, m < 255 ∧ upcoming s.spi (k + 1 + 2 * m) = 0xFF ∧
          (∀ i, i < m → upcoming s.spi (k + 1 + 2 * i) ≠ 0xFF ∧
            upcoming s.spi (k + 1 + 2 * i + 1) ≠ 0) ∧
          ∃ spi2, InitSd s = (3, { s with spi := spi2 }) ∧
            Advanced s.spi spi2 (k + 1 + 2 * m + 1)) ∨
       ((∀ m, m < 255 → upcoming s.spi (k + 1 + 2 * m) ≠ 0xFF ∧
            upcoming s.spi (k + 1 + 2 * m + 1) ≠ 0) ∧
          ∃ spi2, InitSd s = (2, { s with spi := spi2 }) ∧
            Advanced s.spi spi2 (k + 1 + 2 * 255)) ∨
       (∃ m, m < 255 ∧ upcoming s.spi (k + 1 + 2 * m) ≠ 0xFF ∧
          upcoming s.spi (k + 1 + 2 * m + 1) = 0 ∧
          (∀ i, i < m → upcoming s.spi (k + 1 + 2 * i) ≠ 0xFF ∧
            upcoming s.spi (k + 1 + 2 * i + 1) ≠ 0) ∧
          ∃ spi1, Advanced s.spi spi1 (k + 1 + 2 * m + 2) ∧
            InitSd s = (if (GetSdParameters { s with spi := spi1 }).1 ≠ 0 then 4 else 0,
                        (GetSdParameters { s with spi := spi1 }).2)))) := by
  have hadv0 := InitSd_prologue_advanced s.spi
  rw [InitSd_eq s _ rfl]
  generalize wakeUp 10 (OpenSPI SpiClock.SPI_FOSC_64 (setSD_CS 1 (SD_CS_INIT s.spi))) = P0
    at hadv0 ⊢
  have u0 : ∀ x, upcoming P0 x = upcoming s.spi x := by
    intro x; rw [hadv0.shift]; exact upcoming_congr _ (by omega)
  rcases goIdle_spec 0xFE P0 with ⟨k, hk, h1, hn1, hres, hpos⟩ | ⟨hn1, hres, hpos⟩
  · right
    refine ⟨k, hk, by rwa [u0] at h1, fun i hi => by have := hn1 i hi; rwa [u0] at this, ?_⟩
    simp only [hres]
    have hadvA : Advanced s.spi
        (SendSdCmd APP_CMD 0 (OpenSPI SpiClock.SPI_FOSC_4 (goIdle 0xFE P0).2)).2 (k + 2) := by
      have := ((hadv0.trans hpos).trans (OpenSPI_advanced SpiClock.SPI_FOSC_4 _)).trans
        (SendSdCmd_advanced APP_CMD 0 _)
      have e : 0 + (k + 1) + 0 + 1 = k + 2 := by omega
      rwa [e] at this
    have hfst : (SendSdCmd APP_CMD 0 (OpenSPI SpiClock.SPI_FOSC_4 (goIdle 0xFE P0).2)).1
        = upcoming s.spi (k + 1) := by
      rw [SendSdCmd_fst,
        ((hadv0.trans hpos).trans (OpenSPI_advanced SpiClock.SPI_FOSC_4 _)).shift]
      exact upcoming_congr _ (by omega)
    rw [hfst]
    generalize (SendSdCmd APP_CMD 0 (OpenSPI SpiClock.SPI_FOSC_4 (goIdle 0xFE P0).2)).2 = PA
      at hadvA ⊢
    by_cases hFF : upcoming s.spi (k + 1) = 0xFF
    · left
      simp only [hFF, if_true]
      exact ⟨0, by decide, hFF, fun i hi => absurd hi (Nat.not_lt_zero i), PA, rfl, hadvA⟩
    · simp only [hFF, if_false]
      have hL : ∀ x, upcoming PA x = upcoming s.spi (k + 2 + x) := fun x => hadvA.shift x
      have rounds : ∀ n, (∀ i, i < n → upcoming PA (2 * i) ≠ 0 ∧ upcoming PA (2 * i + 1) ≠ 0xFF) →
          (∀ i, i < n → upcoming s.spi (k + 1 + 2 * i) ≠ 0xFF ∧
            upcoming s.spi (k + 1 + 2 * i + 1) ≠ 0) ∧
          upcoming s.spi (k + 1 + 2 * n) ≠ 0xFF := by
        intro n hprev
        have app : ∀ i, i < n + 1 → upcoming s.spi (k + 1 + 2 * i) ≠ 0xFF := by
          intro i hi
          cases i with
          | zero => exact hFF
          | succ j =>
            have := (hprev j (by omega)).2
            rw [hL] at this
            rwa [upcoming_congr s.spi (show k + 1 + 2 * (j + 1) = k + 2 + (2 * j + 1) by omega)]
        refine ⟨fun i hi => ⟨app i (by omega), ?_⟩, app n (by omega)⟩
        have := (hprev i hi).1
        rw [hL] at this
        rwa [upcoming_congr s.spi (show k + 1 + 2 * i + 1 = k + 2 + 2 * i by omega)]
      rcases initCard_spec 0xFE PA with
        ⟨j, hj, hz, hprev, hr, hp⟩ | ⟨j, hj, hff, hnz, hprev, hr, hp⟩ | ⟨hprev, hnz, hr, hp⟩
      · right; right
        simp only [hr]
        obtain ⟨hrounds, happ⟩ := rounds j hprev
        refine ⟨j, hj, happ, ?_, hrounds, (initCard 0xFE PA).2, ?_, rfl⟩
        · rw [hL] at hz
          rwa [upcoming_congr s.spi (show k + 1 + 2 * j + 1 = k + 2 + 2 * j by omega)]
        · have := hadvA.trans hp
          rwa [show k + 2 + (2 * j + 1) = k + 1 + 2 * j + 2 by omega] at this
      · left
        simp only [hr]
        obtain ⟨hrounds, _⟩ := rounds j hprev
        refine ⟨j + 1, by omega, ?_, ?_, (initCard 0xFE PA).2, rfl, ?_⟩
        · rw [hL] at hff
          rwa [upcoming_congr s.spi (show k + 1 + 2 * (j + 1) = k + 2 + (2 * j + 1) by omega)]
        · intro i hi
          rcases Nat.lt_succ_iff_lt_or_eq.mp hi with h | h
          · exact hrounds i h
          · subst h
            refine ⟨(rounds i hprev).2, ?_⟩
            rw [hL] at hnz
            rwa [upcoming_congr s.spi (show k + 1 + 2 * i + 1 = k + 2 + 2 * i by omega)]
        · have := hadvA.trans hp
          rwa [show k + 2 + (2 * j + 2) = k + 1 + 2 * (j + 1) + 1 by omega] at this
      · right; left
        simp only [hr]
        obtain ⟨hrounds, happ⟩ := rounds 0xFE hprev
        refine ⟨?_, (initCard 0xFE PA).2, rfl, ?_⟩
        · intro m hm
          rcases Nat.lt_succ_iff_lt_or_eq.mp (show m < 0xFE + 1 from hm) with h | h
          · exact hrounds m h
          · subst h
            refine ⟨happ, ?_⟩
            have e := upcoming_congr s.spi (show k + 1 + 2 * 0xFE + 1 = k + 2 + 2 * 0xFE by omega)
            exact fun h0 => hnz ((hL _).trans (e.symm.trans h0))
        · have := hadvA.trans hp
          rwa [show k + 2 + (2 * 0xFE + 1) = k + 1 + 2 * 255 by omega] at this
  · left
    simp only [hres]
    refine ⟨fun i hi => by have := hn1 i hi; rwa [u0] at this, (goIdle 0xFE P0).2, rfl, ?_⟩
    have := hadv0.trans hpos
    rwa [show 0 + (0xFE + 1) = 255 by decide] at this

/-! ## Counting the command bytes written -/

theorem count_ReadSPI (t : Nat) (spi : Spi) :
    (ReadSPI spi).2.log.count (SpiEvent.write t) = spi.log.count (SpiEvent.write t) := by
  simp [ReadSPI, List.count_append, List.count_cons]

theorem count_WriteSPI_idle (t : Nat) (spi : Spi) (h1 : t ≠ 0xFF) :
    (WriteSPI 0xFF spi).log.count (SpiEvent.write t) = spi.log.count (SpiEvent.write t) := by
  simp [WriteSPI, List.count_append, List.count_cons, h1.symm]

theorem count_SendSdCmd (t x : Nat) (spi : Spi) (h1 : t ≠ 0xFF) (h2 : t ≠ 0) (h3 : t ≠ 0x95) :
    (SendSdCmd x 0 spi).2.log.count (SpiEvent.write t) =
      spi.log.count (SpiEvent.write t) + if (x ||| 0x40) % 256 = t then 1 else 0 := by
  rw [SendSdCmd_log]
  simp [List.count_append, List.count_cons, h1.symm, h2.symm, h3.symm]

theorem count_waitStatus (t n r : Nat) (spi : Spi) :
    (waitStatus n r spi).2.log.count (SpiEvent.write t) = spi.log.count (SpiEvent.write t) := by
  induction n generalizing r spi with
  | zero => by_cases hr : r = 0 <;> simp [waitStatus, hr]
  | succ m ih =>
    by_cases hr : r = 0
    · rw [hr, waitStatus_zero]
    · rw [waitStatus_succ m r spi hr, ih, count_ReadSPI]

theorem count_pollToken (t m : Nat) (spi : Spi) :
    (pollToken m spi).2.log.count (SpiEvent.write t) = spi.log.count (SpiEvent.write t) := by
  induction m generalizing spi with
  | zero => rfl
  | succ m ih =>
    rw [pollToken]
    by_cases hFE : (ReadSPI spi).1 = 0xFE
    · simp only [hFE, if_true]; exact count_ReadSPI t spi
    · by_cases hFF : (ReadSPI spi).1 = 0xFF
      · simp [hFF, ih, count_ReadSPI]
      · simp only [hFE, if_false, ne_eq, hFF, not_false_eq_true, if_true]
        exact count_ReadSPI t spi

theorem count_readBuff (t n : Nat) (spi : Spi) :
    (readBuff n spi).2.log.count (SpiEvent.write t) = spi.log.count (SpiEvent.write t) := by
  induction n generalizing spi with
  | zero => rfl
  | succ n ih =>
    show (readBuff n (ReadSPI spi).2).2.log.count (SpiEvent.write t) = _
    rw [ih, count_ReadSPI]

theorem count_PrepSdForDataIo (t x : Nat) (spi : Spi) (h1 : t ≠ 0xFF) (h2 : t ≠ 0)
    (h3 : t ≠ 0x95) :
    (PrepSdForDataIo x 0 spi).2.log.count (SpiEvent.write t) =
      spi.log.count (SpiEvent.write t) + if (x ||| 0x40) % 256 = t then 1 else 0 := by
  rw [PrepSdForDataIo_eq]
  have hw := count_waitStatus t 0xFE (SendSdCmd x 0 spi).1 (SendSdCmd x 0 spi).2
  have hp := count_pollToken t 0xFF (waitStatus 0xFE (SendSdCmd x 0 spi).1 (SendSdCmd x 0 spi).2).2
  rw [count_SendSdCmd t x spi h1 h2 h3] at hw
  rw [hw] at hp
  cases h : (waitStatus 0xFE (SendSdCmd x 0 spi).1 (SendSdCmd x 0 spi).2).1 with
  | some r => exact hw
  | none =>
    cases h2 : (pollToken 0xFF
        (waitStatus 0xFE (SendSdCmd x 0 spi).1 (SendSdCmd x 0 spi).2).2).1 with
    | some r => exact hp
    | none => exact hp

theorem count_GetSdParameters (t : Nat) (s : SdState) (h1 : t ≠ 0xFF) (h2 : t ≠ 0)
    (h3 : t ≠ 0x95) (h4 : t ≠ 0x49) :
    (GetSdParameters s).2.spi.log.count (SpiEvent.write t) = s.spi.log.count (SpiEvent.write t) := by
  have hp := count_PrepSdForDataIo t SEND_CSD s.spi h1 h2 h3
  have hx : ¬ ((SEND_CSD ||| 0x40) % 256 = t) := by
    intro h; exact h4 (by rw [← h]; decide)
  rw [if_neg hx, Nat.add_zero] at hp
  by_cases hr : (PrepSdForDataIo SEND_CSD 0 s.spi).1 = 0
  · have : (GetSdParameters s).2.spi = (readBuff 16 (PrepSdForDataIo SEND_CSD 0 s.spi).2).2 := by
      simp [GetSdParameters, hr]
    rw [this, count_readBuff, hp]
  · rw [GetSdParameters_fail s hr]; exact hp

theorem count_goIdle (t n : Nat) (spi : Spi) (h1 : t ≠ 0xFF) (h2 : t ≠ 0) (h3 : t ≠ 0x95) :
    (goIdle n spi).2.log.count (SpiEvent.write t) ≤
      spi.log.count (SpiEvent.write t) + (if 0x40 = t then n + 1 else 0) := by
  have hs := count_SendSdCmd t GO_IDLE_STATE spi h1 h2 h3
  have hb : (GO_IDLE_STATE ||| 0x40) % 256 = 0x40 := by decide
  rw [hb] at hs
  induction n generalizing spi with
  | zero =>
    rw [goIdle]
    by_cases hr : (SendSdCmd GO_IDLE_STATE 0 spi).1 = 1
    · simp only [hr, ne_eq, not_true_eq_false, if_false]; rw [hs]
    · simp only [hr, ne_eq, not_false_eq_true, if_true]; rw [hs]
  | succ n ih =>
    rw [goIdle]
    by_cases hr : (SendSdCmd GO_IDLE_STATE 0 spi).1 = 1
    · simp only [hr, ne_eq, not_true_eq_false, if_false]; rw [hs]
      split <;> omega
    · simp only [hr, ne_eq, not_false_eq_true, if_true]
      have := ih (SendSdCmd GO_IDLE_STATE 0 spi).2
        (count_SendSdCmd t GO_IDLE_STATE _ h1 h2 h3 |>.trans (by rw [hb]))
      rw [hs] at this
      by_cases ht : 0x40 = t
      · simp only [ht, if_true] at this ⊢; omega
      · simp only [ht, if_false] at this ⊢; omega


theorem count_initCard (t n : Nat) (spi : Spi) (h1 : t ≠ 0xFF) (h2 : t ≠ 0) (h3 : t ≠ 0x95)
    (h4 : t ≠ 0x77) :
    (initCard n spi).2.log.count (SpiEvent.write t) ≤
      spi.log.count (SpiEvent.write t) + (if 0x69 = t then n + 1 else 0) := by
  have hb : (INIT_CARD ||| 0x40) % 256 = 0x69 := by decide
  have ha : ¬ ((APP_CMD ||| 0x40) % 256 = t) := by
    intro h; exact h4 (by rw [← h]; decide)
  induction n generalizing spi with
  | zero =>
    have hs := count_SendSdCmd t INIT_CARD spi h1 h2 h3
    rw [hb] at hs
    rw [initCard]
    by_cases hr : (SendSdCmd INIT_CARD 0 spi).1 = 0
    · simp only [hr, ne_eq, not_true_eq_false, if_false]; rw [hs]
    · simp only [hr, ne_eq, not_false_eq_true, if_true]; rw [hs]
  | succ n ih =>
    have hs := count_SendSdCmd t INIT_CARD spi h1 h2 h3
    rw [hb] at hs
    have hs2 := count_SendSdCmd t APP_CMD (SendSdCmd INIT_CARD 0 spi).2 h1 h2 h3
    rw [if_neg ha, Nat.add_zero, hs] at hs2
    rw [initCard]
    by_cases hr : (SendSdCmd INIT_CARD 0 spi).1 = 0
    · simp only [hr, ne_eq, not_true_eq_false, if_false]; rw [hs]
      split <;> omega
    · simp only [hr, ne_eq, not_false_eq_true, if_true]
      by_cases hFF : (SendSdCmd APP_CMD 0 (SendSdCmd INIT_CARD 0 spi).2).1 = 0xFF
      · simp only [hFF, if_true]; rw [hs2]
        split <;> omega
      · simp only [hFF, if_false]
        have := ih (SendSdCmd APP_CMD 0 (SendSdCmd INIT_CARD 0 spi).2).2
        rw [hs2] at this
        by_cases ht : 0x69 = t
        · simp only [ht, if_true] at this ⊢; omega
        · simp only [ht, if_false] at this ⊢; omega

theorem count_wakeUp (t n : Nat) (spi : Spi) (h1 : t ≠ 0xFF) :
    (wakeUp n spi).log.count (SpiEvent.write t) = spi.log.count (SpiEvent.write t) := by
  induction n generalizing spi with
  | zero => rfl
  | succ n ih =>
    show (wakeUp n (WriteSPI 0xFF spi)).log.count _ = _
    rw [ih, count_WriteSPI_idle t spi h1]

theorem count_InitSd_prologue (t : Nat) (spi : Spi) (h1 : t ≠ 0xFF) :
    (wakeUp 10 (OpenSPI SpiClock.SPI_FOSC_64 (setSD_CS 1 (SD_CS_INIT spi)))).log.count
      (SpiEvent.write t) = spi.log.count (SpiEvent.write t) := by
  rw [count_wakeUp t 10 _ h1]
  simp [OpenSPI, setSD_CS, SD_CS_INIT, List.count_append, List.count_cons]

theorem count_OpenSPI (t : Nat) (c : SpiClock) (spi : Spi) :
    (OpenSPI c spi).log.count (SpiEvent.write t) = spi.log.count (SpiEvent.write t) := by
  simp [OpenSPI, List.count_append, List.count_cons]

/-- `InitSd` writes a command byte `t` (other than those of `APP_CMD` and
`SEND_CSD`) at most 255 times, and only if it is the byte of `GO_IDLE_STATE` or
`INIT_CARD`. -/
theorem count_InitSd (t : Nat) (s : SdState) (h1 : t ≠ 0xFF) (h2 : t ≠ 0) (h3 : t ≠ 0x95)
    (h4 : t ≠ 0x77) (h5 : t ≠ 0x49) :
    (InitSd s).2.spi.log.count (SpiEvent.write t) ≤
      s.spi.log.count (SpiEvent.write t) + (if 0x40 = t ∨ 0x69 = t then 255 else 0) := by
  have h0 := count_InitSd_prologue t s.spi h1
  rw [InitSd_eq s _ rfl]
  generalize wakeUp 10 (OpenSPI SpiClock.SPI_FOSC_64 (setSD_CS 1 (SD_CS_INIT s.spi))) = P0
    at h0 ⊢
  have hg := count_goIdle t 0xFE P0 h1 h2 h3
  rw [h0] at hg
  have ha : ¬ ((APP_CMD ||| 0x40) % 256 = t) := by
    intro h; exact h4 (by rw [← h]; decide)
  have hA := count_SendSdCmd t APP_CMD (OpenSPI SpiClock.SPI_FOSC_4 (goIdle 0xFE P0).2) h1 h2 h3
  rw [if_neg ha, Nat.add_zero, count_OpenSPI] at hA
  have hI := count_initCard t 0xFE
    (SendSdCmd APP_CMD 0 (OpenSPI SpiClock.SPI_FOSC_4 (goIdle 0xFE P0).2)).2 h1 h2 h3 h4
  rw [hA] at hI
  have hG := count_GetSdParameters t { s with spi := (initCard 0xFE
    (SendSdCmd APP_CMD 0 (OpenSPI SpiClock.SPI_FOSC_4 (goIdle 0xFE P0).2)).2).2 } h1 h2 h3 h5
  simp only at hG
  have key : ∀ x : Nat,
      (x ≤ s.spi.log.count (SpiEvent.write t) + (if 0x40 = t then 0xFE + 1 else 0) +
        (if 0x69 = t then 0xFE + 1 else 0)) →
      x ≤ s.spi.log.count (SpiEvent.write t) + (if 0x40 = t ∨ 0x69 = t then 255 else 0) := by
    intro x hx
    by_cases e1 : 0x40 = t
    · have e2 : ¬ (0x69 = t) := by rw [← e1]; decide
      simp only [e1, e2, if_true, if_false, true_or] at hx ⊢; omega
    · by_cases e2 : 0x69 = t
      · simp only [e1, e2, if_true, if_false, or_true] at hx ⊢; omega
      · simp only [e1, e2, if_false, or_self] at hx ⊢; omega
  cases hres : (goIdle 0xFE P0).1 with
  | some r => exact key _ (by show (goIdle 0xFE P0).2.log.count _ ≤ _; split <;> split at hg <;> omega)
  | none =>
    simp only
    by_cases hFF : (SendSdCmd APP_CMD 0 (OpenSPI SpiClock.SPI_FOSC_4 (goIdle 0xFE P0).2)).1 = 0xFF
    · rw [if_pos hFF]
      exact key _ (by
        show (SendSdCmd APP_CMD 0 (OpenSPI SpiClock.SPI_FOSC_4 (goIdle 0xFE P0).2)).2.log.count _ ≤ _
        rw [hA]; split <;> split at hg <;> omega)
    · rw [if_neg hFF]
      cases hres2 : (initCard 0xFE
          (SendSdCmd APP_CMD 0 (OpenSPI SpiClock.SPI_FOSC_4 (goIdle 0xFE P0).2)).2).1 with
      | some r =>
        exact key _ (by
          show (initCard 0xFE
            (SendSdCmd APP_CMD 0 (OpenSPI SpiClock.SPI_FOSC_4 (goIdle 0xFE P0).2)).2).2.log.count _ ≤ _
          omega)
      | none =>
        exact key _ (by
          show (GetSdParameters _).2.spi.log.count _ ≤ _
          rw [hG]; omega)


/-! ## Consequences of the case analyses -/

theorem PrepSdForDataIo_advanced (cmd arg : Nat) (spi : Spi) :
    ∃ d, d ≤ 510 ∧ Advanced spi (PrepSdForDataIo cmd arg spi).2 d := by
  rcases PrepSdForDataIo_cases cmd arg spi with ⟨_, _, hadv⟩ | ⟨k, hk, _, _, hc⟩
  · exact ⟨255, by decide, hadv⟩
  · rcases hc with ⟨_, _, hadv⟩ | ⟨j, hj, _, _, _, hadv⟩
    · exact ⟨k + 1 + 255, by omega, hadv⟩
    · exact ⟨k + 1 + (j + 1), by omega, hadv⟩

theorem PrepSdForDataIo_status_timeout (cmd arg : Nat) (spi : Spi)
    (h : ∀ i, i < 255 → upcoming spi i ≠ 0) : (PrepSdForDataIo cmd arg spi).1 = 1 := by
  rcases PrepSdForDataIo_cases cmd arg spi with ⟨_, hr, _⟩ | ⟨k, hk, hz, _, _⟩
  · exact hr
  · exact absurd hz (h k hk)

theorem PrepSdForDataIo_token_timeout (cmd arg : Nat) (spi : Spi) (k : Nat) (hk : k < 255)
    (hz : upcoming spi k = 0) (hnz : ∀ i, i < k → upcoming spi i ≠ 0)
    (hidle : ∀ j, j < 255 → upcoming spi (k + 1 + j) = 0xFF) :
    (PrepSdForDataIo cmd arg spi).1 = 0x80 := by
  rcases PrepSdForDataIo_cases cmd arg spi with ⟨hall, _, _⟩ | ⟨k2, hk2, hz2, hnz2, hc⟩
  · exact absurd hz (hall k hk)
  · have hkk : k = k2 := first_unique (P := fun i => upcoming spi i = 0) hz hz2 hnz hnz2
    subst hkk
    rcases hc with ⟨_, hr, _⟩ | ⟨j, hj, hne, _, _, _⟩
    · exact hr
    · exact absurd (hidle j hj) hne

theorem GetSdParameters_fst (s : SdState) :
    ((GetSdParameters s).1 = 0 ∧ (PrepSdForDataIo SEND_CSD 0 s.spi).1 = 0) ∨
    ((GetSdParameters s).1 = 1 ∧ (PrepSdForDataIo SEND_CSD 0 s.spi).1 ≠ 0) := by
  by_cases h : (PrepSdForDataIo SEND_CSD 0 s.spi).1 = 0
  · exact Or.inl ⟨(GetSdParameters_ok s h).1, h⟩
  · right
    rw [GetSdParameters_fail s h]
    exact ⟨rfl, h⟩

theorem GetSdParameters_advanced (s : SdState) :
    ∃ d, d ≤ 526 ∧ Advanced s.spi (GetSdParameters s).2.spi d := by
  obtain ⟨d, hd, hadv⟩ := PrepSdForDataIo_advanced SEND_CSD 0 s.spi
  by_cases h : (PrepSdForDataIo SEND_CSD 0 s.spi).1 = 0
  · exact ⟨d + 16, by omega, hadv.trans (GetSdParameters_ok s h).2.2.2.2.2.2⟩
  · rw [GetSdParameters_fail s h]
    exact ⟨d, by omega, hadv⟩

/-- After a successful fetch the card parameters are the decoding of the last 16
bytes read. -/
theorem GetSdParameters_decode (s : SdState) (h : (GetSdParameters s).1 = 0) :
    ∃ c, Advanced s.spi (GetSdParameters s).2.spi (c + 16) ∧
      (GetSdParameters s).2.numBlocks
        = (decodeCsd (fun i => upcoming s.spi (c + i))).numBlocks ∧
      (GetSdParameters s).2.wrBlockSize
        = (decodeCsd (fun i => upcoming s.spi (c + i))).wrBlockSize ∧
      (GetSdParameters s).2.rdBlockSize
        = (decodeCsd (fun i => upcoming s.spi (c + i))).rdBlockSize ∧
      (GetSdParameters s).2.eraseSize
        = (decodeCsd (fun i => upcoming s.spi (c + i))).eraseSize := by
  have hp : (PrepSdForDataIo SEND_CSD 0 s.spi).1 = 0 := by
    rcases GetSdParameters_fst s with ⟨_, hp⟩ | ⟨h1, _⟩
    · exact hp
    · rw [h1] at h; exact absurd h (by decide)
  obtain ⟨d, _, hadv⟩ := PrepSdForDataIo_advanced SEND_CSD 0 s.spi
  obtain ⟨_, hn, hw, hr, he, _, hadv2⟩ := GetSdParameters_ok s hp
  have hf : upcoming (PrepSdForDataIo SEND_CSD 0 s.spi).2 = fun i => upcoming s.spi (d + i) :=
    funext (fun i => hadv.shift i)
  rw [hf] at hn hw hr he
  exact ⟨d, hadv.trans hadv2, hn, hw, hr, he⟩

theorem InitSd_eq_one_iff (s : SdState) :
    (InitSd s).1 = 1 ↔ ∀ i, i < 255 → upcoming s.spi i ≠ 1 := by
  rcases InitSd_cases s with ⟨hall, spi2, he, _⟩ | ⟨k, hk, h1, _, hc⟩
  · rw [he]; exact ⟨fun _ => hall, fun _ => rfl⟩
  · have hne : (InitSd s).1 ≠ 1 := by
      rcases hc with ⟨_, _, _, _, spi2, he, _⟩ | ⟨_, spi2, he, _⟩ | ⟨_, _, _, _, _, spi1, _, he⟩
      · rw [he]; exact (by decide : (3 : Nat) ≠ 1)
      · rw [he]; exact (by decide : (2 : Nat) ≠ 1)
      · rw [he]; simp only; split <;> decide
    exact ⟨fun h => absurd h hne, fun h => absurd h1 (h k hk)⟩

/-- The case analysis of `InitSd` once the index `k` of the first `0x01` answer
to `GO_IDLE_STATE` is known. -/
theorem InitSd_cases_at (s : SdState) (k : Nat) (hk : k < 255) (h1 : upcoming s.spi k = 1)
    (hn1 : ∀ i, i < k → upcoming s.spi i ≠ 1) :
    (∃ m, m < 255 ∧ upcoming s.spi (k + 1 + 2 * m) = 0xFF ∧
        (∀ i, i < m → upcoming s.spi (k + 1 + 2 * i) ≠ 0xFF ∧
          upcoming s.spi (k + 1 + 2 * i + 1) ≠ 0) ∧
        ∃ spi2, InitSd s = (3, { s with spi := spi2 }) ∧
          Advanced s.spi spi2 (k + 1 + 2 * m + 1)) ∨
    ((∀ m, m < 255 → upcoming s.spi (k + 1 + 2 * m) ≠ 0xFF ∧
          upcoming s.spi (k + 1 + 2 * m + 1) ≠ 0) ∧
        ∃ spi2, InitSd s = (2, { s with spi := spi2 }) ∧
          Advanced s.spi spi2 (k + 1 + 2 * 255)) ∨
    (∃ m, m < 255 ∧ upcoming s.spi (k + 1 + 2 * m) ≠ 0xFF ∧
        upcoming s.spi (k + 1 + 2 * m + 1) = 0 ∧
        (∀ i, i < m → upcoming s.spi (k + 1 + 2 * i) ≠ 0xFF ∧
          upcoming s.spi (k + 1 + 2 * i + 1) ≠ 0) ∧
        ∃ spi1, Advanced s.spi spi1 (k + 1 + 2 * m + 2) ∧
          InitSd s = (if (GetSdParameters { s with spi := spi1 }).1 ≠ 0 then 4 else 0,
                      (GetSdParameters { s with spi := spi1 }).2)) := by
  rcases InitSd_cases s with ⟨hall, _⟩ | ⟨k2, hk2, h12, hn12, hc⟩
  · exact absurd h1 (hall k hk)
  · have hkk : k = k2 := first_unique (P := fun i => upcoming s.spi i = 1) h1 h12 hn1 hn12
    subst hkk
    exact hc

theorem InitSd_eq_three_iff (s : SdState) (k : Nat) (hk : k < 255) (h1 : upcoming s.spi k = 1)
    (hn1 : ∀ i, i < k → upcoming s.spi i ≠ 1) :
    (InitSd s).1 = 3 ↔
      ∃ m, m < 255 ∧ upcoming s.spi (k + 1 + 2 * m) = 0xFF ∧
        ∀ i, i < m → upcoming s.spi (k + 1 + 2 * i) ≠ 0xFF ∧
          upcoming s.spi (k + 1 + 2 * i + 1) ≠ 0 := by
  rcases InitSd_cases_at s k hk h1 hn1 with
    ⟨m, hm, hff, hprev, spi2, he, _⟩ | ⟨hall, spi2, he, _⟩ |
    ⟨m, hm, hnff, hz, hprev, spi1, _, he⟩
  · rw [he]; exact ⟨fun _ => ⟨m, hm, hff, hprev⟩, fun _ => rfl⟩
  · rw [he]
    refine ⟨fun h => absurd (show (2 : Nat) = 3 from h) (by decide), ?_⟩
    rintro ⟨m, hm, hff, _⟩
    exact absurd hff (hall m hm).1
  · have hne : (InitSd s).1 ≠ 3 := by
      rw [he]; simp only; split <;> decide
    refine ⟨fun h => absurd h hne, ?_⟩
    rintro ⟨m2, hm2, hff2, hprev2⟩
    rcases Nat.lt_trichotomy m m2 with h | h | h
    · exact absurd hz (hprev2 m h).2
    · subst h; exact absurd hff2 hnff
    · exact absurd hff2 (hprev m2 h).1

theorem InitSd_eq_two_iff (s : SdState) (k : Nat) (hk : k < 255) (h1 : upcoming s.spi k = 1)
    (hn1 : ∀ i, i < k → upcoming s.spi i ≠ 1) :
    (InitSd s).1 = 2 ↔
      ∀ m, m < 255 → upcoming s.spi (k + 1 + 2 * m) ≠ 0xFF ∧
        upcoming s.spi (k + 1 + 2 * m + 1) ≠ 0 := by
  rcases InitSd_cases_at s k hk h1 hn1 with
    ⟨m, hm, hff, hprev, spi2, he, _⟩ | ⟨hall, spi2, he, _⟩ |
    ⟨m, hm, hnff, hz, hprev, spi1, _, he⟩
  · rw [he]
    exact ⟨fun h => absurd (show (3 : Nat) = 2 from h) (by decide),
      fun h => absurd hff (h m hm).1⟩
  · rw [he]; exact ⟨fun _ => hall, fun _ => rfl⟩
  · have hne : (InitSd s).1 ≠ 2 := by
      rw [he]; simp only; split <;> decide
    exact ⟨fun h => absurd h hne, fun h => absurd hz (h m hm).2⟩

theorem InitSd_handshake_ok (s : SdState) (k m : Nat) (hk : k < 255)
    (h1 : upcoming s.spi k = 1) (hn1 : ∀ i, i < k → upcoming s.spi i ≠ 1) (hm : m < 255)
    (hnff : upcoming s.spi (k + 1 + 2 * m) ≠ 0xFF) (hz : upcoming s.spi (k + 1 + 2 * m + 1) = 0)
    (hprev : ∀ i, i < m → upcoming s.spi (k + 1 + 2 * i) ≠ 0xFF ∧
      upcoming s.spi (k + 1 + 2 * i + 1) ≠ 0) :
    ∃ spi1, Advanced s.spi spi1 (k + 1 + 2 * m + 2) ∧
      InitSd s = (if (GetSdParameters { s with spi := spi1 }).1 ≠ 0 then 4 else 0,
                  (GetSdParameters { s with spi := spi1 }).2) := by
  rcases InitSd_cases_at s k hk h1 hn1 with
    ⟨m3, hm3, hff3, hprev3, _⟩ | ⟨hall, _⟩ | ⟨m2, hm2, hnff2, hz2, hprev2, spi1, hadv, he⟩
  · rcases Nat.lt_trichotomy m3 m with h | h | h
    · exact absurd hff3 (hprev m3 h).1
    · subst h; exact absurd hff3 hnff
    · exact absurd hz (hprev3 m h).2
  · exact absurd hz (hall m hm).2
  · rcases Nat.lt_trichotomy m2 m with h | h | h
    · exact absurd hz2 (hprev m2 h).2
    · subst h; exact ⟨spi1, hadv, he⟩
    · exact absurd hz (hprev2 m h).2

theorem InitSd_advanced (s : SdState) :
    ∃ d, d ≤ 1291 ∧ Advanced s.spi (InitSd s).2.spi d := by
  rcases InitSd_cases s with ⟨_, spi2, he, hadv⟩ | ⟨k, hk, _, _, hc⟩
  · rw [he]; exact ⟨255, by decide, hadv⟩
  · rcases hc with ⟨m, hm, _, _, spi2, he, hadv⟩ | ⟨_, spi2, he, hadv⟩ |
      ⟨m, hm, _, _, _, spi1, hadv, he⟩
    · rw [he]; exact ⟨k + 1 + 2 * m + 1, by omega, hadv⟩
    · rw [he]; exact ⟨k + 1 + 2 * 255, by omega, hadv⟩
    · rw [he]
      obtain ⟨d, hd, hadv2⟩ := GetSdParameters_advanced { s with spi := spi1 }
      exact ⟨k + 1 + 2 * m + 2 + d, by omega, hadv.trans hadv2⟩

theorem InitSd_fst_mem (s : SdState) :
    (InitSd s).1 = 0 ∨ (InitSd s).1 = 1 ∨ (InitSd s).1 = 2 ∨ (InitSd s).1 = 3 ∨
      (InitSd s).1 = 4 := by
  rcases InitSd_cases s with ⟨_, spi2, he, _⟩ | ⟨k, hk, _, _, hc⟩
  · rw [he]; exact Or.inr (Or.inl rfl)
  · rcases hc with ⟨m, hm, _, _, spi2, he, _⟩ | ⟨_, spi2, he, _⟩ |
      ⟨m, hm, _, _, _, spi1, _, he⟩
    · rw [he]; exact Or.inr (Or.inr (Or.inr (Or.inl rfl)))
    · rw [he]; exact Or.inr (Or.inr (Or.inl rfl))
    · rw [he]
      by_cases hg : (GetSdParameters { s with spi := spi1 }).1 = 0
      · left; simp [hg]
      · right; right; right; right; simp [hg]

/-- When `InitSd` returns 0 or 4 the handshake was completed: `GO_IDLE_STATE`
was answered `0x01` at read `k` and the `m`-th `INIT_CARD` was answered `0x00`. -/
theorem InitSd_handshake_of_fst (s : SdState) (h : (InitSd s).1 = 0 ∨ (InitSd s).1 = 4) :
    ∃ k m, k < 255 ∧ m < 255 ∧ upcoming s.spi k = 1 ∧ (∀ i, i < k → upcoming s.spi i ≠ 1) ∧
      upcoming s.spi (k + 1 + 2 * m) ≠ 0xFF ∧ upcoming s.spi (k + 1 + 2 * m + 1) = 0 ∧
      (∀ i, i < m → upcoming s.spi (k + 1 + 2 * i) ≠ 0xFF ∧
        upcoming s.spi (k + 1 + 2 * i + 1) ≠ 0) ∧
      ∃ spi1, Advanced s.spi spi1 (k + 1 + 2 * m + 2) ∧
        InitSd s = (if (GetSdParameters { s with spi := spi1 }).1 ≠ 0 then 4 else 0,
                    (GetSdParameters { s with spi := spi1 }).2) := by
  rcases InitSd_cases s with ⟨_, spi2, he, _⟩ | ⟨k, hk, h1, hn1, hc⟩
  · rw [he] at h
    rcases h with h | h
    · exact absurd (show (1 : Nat) = 0 from h) (by decide)
    · exact absurd (show (1 : Nat) = 4 from h) (by decide)
  · rcases hc with ⟨m, hm, _, _, spi2, he, _⟩ | ⟨_, spi2, he, _⟩ |
      ⟨m, hm, hnff, hz, hprev, spi1, hadv, he⟩
    · rw [he] at h
      rcases h with h | h
      · exact absurd (show (3 : Nat) = 0 from h) (by decide)
      · exact absurd (show (3 : Nat) = 4 from h) (by decide)
    · rw [he] at h
      rcases h with h | h
      · exact absurd (show (2 : Nat) = 0 from h) (by decide)
      · exact absurd (show (2 : Nat) = 4 from h) (by decide)
    · exact ⟨k, m, hk, hm, h1, hn1, hnff, hz, hprev, spi1, hadv, he⟩

/-- When `InitSd` returns 0 the card parameters are the decoding of the last 16
bytes read. -/
theorem InitSd_decode (s : SdState) (h : (InitSd s).1 = 0) :
    ∃ c, Advanced s.spi (InitSd s).2.spi (c + 16) ∧
      (InitSd s).2.numBlocks = (decodeCsd (fun i => upcoming s.spi (c + i))).numBlocks ∧
      (InitSd s).2.wrBlockSize = (decodeCsd (fun i => upcoming s.spi (c + i))).wrBlockSize ∧
      (InitSd s).2.rdBlockSize = (decodeCsd (fun i => upcoming s.spi (c + i))).rdBlockSize ∧
      (InitSd s).2.eraseSize = (decodeCsd (fun i => upcoming s.spi (c + i))).eraseSize := by
  obtain ⟨k, m, _, _, _, _, _, _, _, spi1, hadv, he⟩ := InitSd_handshake_of_fst s (Or.inl h)
  have hg : (GetSdParameters { s with spi := spi1 }).1 = 0 := by
    rw [he] at h
    by_cases hg : (GetSdParameters { s with spi := spi1 }).1 = 0
    · exact hg
    · simp [hg] at h
  obtain ⟨c, hadv2, hn, hw, hr, hE⟩ := GetSdParameters_decode { s with spi := spi1 } hg
  have hf : (fun i => upcoming spi1 (c + i)) =
      fun i => upcoming s.spi (k + 1 + 2 * m + 2 + c + i) := by
    funext i
    rw [hadv.shift]
    exact upcoming_congr _ (by omega)
  simp only at hadv2 hn hw hr hE
  rw [hf] at hn hw hr hE
  rw [he]
  refine ⟨k + 1 + 2 * m + 2 + c, ?_, hn, hw, hr, hE⟩
  have := hadv.trans hadv2
  rwa [← Nat.add_assoc] at this

/-! ## Lemmas about the session and the card parameters -/

theorem OpenSd_of_ge (s : SdState) (blockIdx mode : Nat) (h : s.numBlocks ≤ blockIdx) :
    OpenSd blockIdx mode s =
      (3, { s with currSdBlockStatus :=
              { isOpen := false, write := false, read := false,
                blockIdx := s.currSdBlockStatus.blockIdx, ptr := 0 } }) := by
  have hlt : ¬ blockIdx < s.numBlocks := Nat.not_lt.mpr h
  simp [OpenSd, hlt]

theorem OpenSd_read_eq (s : SdState) (blockIdx : Nat) (h : blockIdx < s.numBlocks) :
    OpenSd blockIdx READ_BLOCK s =
      (if (PrepSdForDataIo READ_SINGLE_BLOCK ((blockIdx * s.rdBlockSize) % 2 ^ 32) s.spi).1 = 0
        then
        (0, { s with
                currSdBlockStatus :=
                  { isOpen := true, write := false, read := true, blockIdx := blockIdx, ptr := 0 },
                spi := (PrepSdForDataIo READ_SINGLE_BLOCK
                  ((blockIdx * s.rdBlockSize) % 2 ^ 32) s.spi).2 })
      else
        (1, { s with
                currSdBlockStatus :=
                  { isOpen := false, write := false, read := false, blockIdx := blockIdx, ptr := 0 },
                spi := (PrepSdForDataIo READ_SINGLE_BLOCK
                  ((blockIdx * s.rdBlockSize) % 2 ^ 32) s.spi).2 })) := by
  by_cases hp :
      (PrepSdForDataIo READ_SINGLE_BLOCK ((blockIdx * s.rdBlockSize) % 2 ^ 32) s.spi).1 = 0
  · simp [OpenSd, h, READ_BLOCK, hp]
  · simp [OpenSd, h, READ_BLOCK, hp]

theorem OpenSd_write_eq (s : SdState) (blockIdx : Nat) (h : blockIdx < s.numBlocks) :
    OpenSd blockIdx WRITE_BLOCK s =
      (if (PrepSdForDataIo WRITE_SINGLE_BLOCK ((blockIdx * s.wrBlockSize) % 2 ^ 32) s.spi).1 = 0
        then
        (0, { s with
                currSdBlockStatus :=
                  { isOpen := true, write := true, read := false, blockIdx := blockIdx, ptr := 0 },
                spi := (PrepSdForDataIo WRITE_SINGLE_BLOCK
                  ((blockIdx * s.wrBlockSize) % 2 ^ 32) s.spi).2 })
      else
        (2, { s with
                currSdBlockStatus :=
                  { isOpen := false, write := false, read := false, blockIdx := blockIdx, ptr := 0 },
                spi := (PrepSdForDataIo WRITE_SINGLE_BLOCK
                  ((blockIdx * s.wrBlockSize) % 2 ^ 32) s.spi).2 })) := by
  by_cases hp :
      (PrepSdForDataIo WRITE_SINGLE_BLOCK ((blockIdx * s.wrBlockSize) % 2 ^ 32) s.spi).1 = 0
  · simp [OpenSd, h, READ_BLOCK, WRITE_BLOCK, hp]
  · simp [OpenSd, h, READ_BLOCK, WRITE_BLOCK, hp]

/-- `OpenSd` with a mode that is neither `READ_BLOCK` nor `WRITE_BLOCK`. -/
theorem OpenSd_other_mode (s : SdState) (blockIdx mode : Nat) (h : blockIdx < s.numBlocks)
    (hr : mode ≠ READ_BLOCK) (hw : mode ≠ WRITE_BLOCK) :
    OpenSd blockIdx mode s =
      (0, { s with currSdBlockStatus :=
              { isOpen := true, write := false, read := false, blockIdx := blockIdx, ptr := 0 } }) := by
  simp [OpenSd, h, hr, hw]

/-- The session record after any `OpenSd`: `ptr` is 0 and a record that is not
open has neither mode flag set. -/
theorem OpenSd_record (s : SdState) (blockIdx mode : Nat) :
    (OpenSd blockIdx mode s).2.currSdBlockStatus.ptr = 0 ∧
    ((OpenSd blockIdx mode s).2.currSdBlockStatus.isOpen = false →
      (OpenSd blockIdx mode s).2.currSdBlockStatus.read = false ∧
      (OpenSd blockIdx mode s).2.currSdBlockStatus.write = false) := by
  by_cases h : blockIdx < s.numBlocks
  · by_cases hr : mode = READ_BLOCK
    · subst hr
      rw [OpenSd_read_eq s blockIdx h]
      split <;> simp
    · by_cases hw : mode = WRITE_BLOCK
      · subst hw
        rw [OpenSd_write_eq s blockIdx h]
        split <;> simp
      · rw [OpenSd_other_mode s blockIdx mode h hr hw]
        simp
  · rw [OpenSd_of_ge s blockIdx mode (Nat.le_of_not_lt h)]
    simp

/-- `OpenSd` never changes the card parameters. -/
theorem OpenSd_params (s : SdState) (blockIdx mode : Nat) :
    (OpenSd blockIdx mode s).2.numBlocks = s.numBlocks ∧
    (OpenSd blockIdx mode s).2.wrBlockSize = s.wrBlockSize ∧
    (OpenSd blockIdx mode s).2.rdBlockSize = s.rdBlockSize ∧
    (OpenSd blockIdx mode s).2.eraseSize = s.eraseSize := by
  by_cases h : blockIdx < s.numBlocks
  · by_cases hr : mode = READ_BLOCK
    · subst hr
      rw [OpenSd_read_eq s blockIdx h]
      split <;> simp
    · by_cases hw : mode = WRITE_BLOCK
      · subst hw
        rw [OpenSd_write_eq s blockIdx h]
        split <;> simp
      · rw [OpenSd_other_mode s blockIdx mode h hr hw]
        simp
  · rw [OpenSd_of_ge s blockIdx mode (Nat.le_of_not_lt h)]
    simp

/-- A failed `InitSd` changes nothing but the port. -/
theorem InitSd_of_fail (s : SdState) (h : (InitSd s).1 ≠ 0) :
    ∃ spi2, (InitSd s).2 = { s with spi := spi2 } := by
  rcases InitSd_cases s with ⟨_, spi2, he, _⟩ | ⟨k, hk, _, _, hc⟩
  · exact ⟨spi2, by rw [he]⟩
  · rcases hc with ⟨m, hm, _, _, spi2, he, _⟩ | ⟨_, spi2, he, _⟩ |
      ⟨m, hm, _, _, _, spi1, _, he⟩
    · exact ⟨spi2, by rw [he]⟩
    · exact ⟨spi2, by rw [he]⟩
    · rcases GetSdParameters_fst { s with spi := spi1 } with ⟨h0, _⟩ | ⟨_, hp⟩
      · rw [he] at h
        simp [h0] at h
      · refine ⟨(PrepSdForDataIo SEND_CSD 0 spi1).2, ?_⟩
        rw [he, GetSdParameters_fail { s with spi := spi1 } hp]

/-- `InitSd` never changes the session record. -/
theorem InitSd_record (s : SdState) :
    (InitSd s).2.currSdBlockStatus = s.currSdBlockStatus := by
  by_cases h : (InitSd s).1 = 0
  · obtain ⟨k, m, _, _, _, _, _, _, _, spi1, _, he⟩ := InitSd_handshake_of_fst s (Or.inl h)
    rw [he]
    rcases GetSdParameters_fst { s with spi := spi1 } with ⟨_, hp⟩ | ⟨_, hp⟩
    · exact (GetSdParameters_ok { s with spi := spi1 } hp).2.2.2.2.2.1
    · rw [GetSdParameters_fail { s with spi := spi1 } hp]
  · obtain ⟨spi2, he⟩ := InitSd_of_fail s h
    rw [he]

/-- A call other than `InitSd` never changes the card parameters. -/
theorem step_params (c : SdCall) (s : SdState) (hc : c.isSession = true) :
    (c.step s).numBlocks = s.numBlocks ∧ (c.step s).wrBlockSize = s.wrBlockSize ∧
    (c.step s).rdBlockSize = s.rdBlockSize ∧ (c.step s).eraseSize = s.eraseSize := by
  cases c with
  | initSd => exact absurd hc (by decide)
  | openSd blockIdx mode => exact OpenSd_params s blockIdx mode
  | closeSd => exact ⟨rfl, rfl, rfl, rfl⟩
  | writeSd wrBuff num => exact ⟨rfl, rfl, rfl, rfl⟩
  | readSd rdBuff num => exact ⟨rfl, rfl, rfl, rfl⟩

theorem runCalls_params (calls : List SdCall) (s : SdState)
    (hc : ∀ c, c ∈ calls → c.isSession = true) :
    (runCalls calls s).numBlocks = s.numBlocks ∧ (runCalls calls s).wrBlockSize = s.wrBlockSize ∧
    (runCalls calls s).rdBlockSize = s.rdBlockSize ∧
    (runCalls calls s).eraseSize = s.eraseSize := by
  induction calls generalizing s with
  | nil => exact ⟨rfl, rfl, rfl, rfl⟩
  | cons c cs ih =>
    obtain ⟨h1, h2, h3, h4⟩ := ih (c.step s) (fun d hd => hc d (List.mem_cons_of_mem c hd))
    obtain ⟨g1, g2, g3, g4⟩ := step_params c s (hc c (List.mem_cons_self c cs))
    exact ⟨h1.trans g1, h2.trans g2, h3.trans g3, h4.trans g4⟩

/-- The invariant of the session record: `ptr` is 0 and a record that is not
open has neither mode flag set. -/
theorem step_record (c : SdCall) (s : SdState)
    (h : s.currSdBlockStatus.ptr = 0 ∧
      (s.currSdBlockStatus.isOpen = false →
        s.currSdBlockStatus.read = false ∧ s.currSdBlockStatus.write = false)) :
    (c.step s).currSdBlockStatus.ptr = 0 ∧
      ((c.step s).currSdBlockStatus.isOpen = false →
        (c.step s).currSdBlockStatus.read = false ∧
        (c.step s).currSdBlockStatus.write = false) := by
  cases c with
  | initSd =>
    have e : (SdCall.initSd.step s).currSdBlockStatus = s.currSdBlockStatus := InitSd_record s
    rw [e]; exact h
  | openSd blockIdx mode => exact OpenSd_record s blockIdx mode
  | closeSd => exact ⟨rfl, fun _ => ⟨rfl, rfl⟩⟩
  | writeSd wrBuff num => exact h
  | readSd rdBuff num => exact h

theorem runCalls_record (calls : List SdCall) (s : SdState)
    (h : s.currSdBlockStatus.ptr = 0 ∧
      (s.currSdBlockStatus.isOpen = false →
        s.currSdBlockStatus.read = false ∧ s.currSdBlockStatus.write = false)) :
    (runCalls calls s).currSdBlockStatus.ptr = 0 ∧
      ((runCalls calls s).currSdBlockStatus.isOpen = false →
        (runCalls calls s).currSdBlockStatus.read = false ∧
        (runCalls calls s).currSdBlockStatus.write = false) := by
  induction calls generalizing s with
  | nil => exact h
  | cons c cs ih => exact ih (c.step s) (step_record c s h)

/-! ## Lemmas about the dispatcher -/

theorem distinct_info (cfg : UsbConfig) (hd : cfg.distinct = true) :
    cfg.INFO_CMD ≠ cfg.ID_BOARD_CMD := by
  simp [UsbConfig.distinct] at hd
  exact fun e => hd.1.1 e.symm

theorem distinct_read_eedata (cfg : UsbConfig) (hd : cfg.distinct = true) :
    cfg.READ_EEDATA_CMD ≠ cfg.ID_BOARD_CMD ∧ cfg.READ_EEDATA_CMD ≠ cfg.INFO_CMD := by
  simp [UsbConfig.distinct] at hd
  exact ⟨fun e => hd.1.2.1 e.symm, fun e => hd.2.1.1 e.symm⟩

/-- `ServiceRequests` in terms of the `switch` statement, when a request is waiting. -/
theorem ServiceRequests_eq (cfg : UsbConfig) (sd : SdState) (st st1 : UsbState)
    (hidle : st.outBusy st.OutIndex = false)
    (h1 : st1 = { st with OutPacket := st.OutIndex, OutPacketLength := st.outLength st.OutIndex,
                          blink_counter := NUM_ACTIVITY_BLINKS }) :
    ServiceRequests cfg sd st =
      match (handleCmd cfg sd st1).1 with
      | none => (handleCmd cfg sd st1).2
      | some num_return_bytes =>
        if num_return_bytes ≠ 0 then
          { (handleCmd cfg sd st1).2 with
              log := (handleCmd cfg sd st1).2.log ++
                [UsbEvent.genRead (handleCmd cfg sd st1).2.OutIndex,
                 UsbEvent.genWrite ((List.range num_return_bytes).map
                   ((handleCmd cfg sd st1).2.InBuffer (handleCmd cfg sd st1).2.InPacket))],
              OutIndex := ((handleCmd cfg sd st1).2.OutIndex ^^^ 1) % 256,
              InIndex := ((handleCmd cfg sd st1).2.InIndex ^^^ 1) % 256,
              InPacket := ((handleCmd cfg sd st1).2.InIndex ^^^ 1) % 256 }
        else
          { (handleCmd cfg sd st1).2 with
              log := (handleCmd cfg sd st1).2.log ++
                [UsbEvent.genRead (handleCmd cfg sd st1).2.OutIndex],
              OutIndex := ((handleCmd cfg sd st1).2.OutIndex ^^^ 1) % 256 } := by
  subst h1
  unfold ServiceRequests
  simp only [hidle, Bool.false_eq_true, if_false]
  rcases hh : handleCmd cfg sd
    { st with OutPacket := st.OutIndex, OutPacketLength := st.outLength st.OutIndex,
              blink_counter := NUM_ACTIVITY_BLINKS } with ⟨r, st2⟩
  cases r with
  | none => rfl
  | some n =>
    by_cases hn : n = 0
    · simp [hn]
    · simp [hn]

/-- The `switch` statement for `INFO_CMD`. -/
theorem handleCmd_info (cfg : UsbConfig) (sd : SdState) (st : UsbState)
    (hd : cfg.distinct = true) (hcmd : st.OutBuffer st.OutPacket 0 % 256 = cfg.INFO_CMD) :
    handleCmd cfg sd st =
      (some 16,
       { st with
           InBuffer := setPacket st.InBuffer st.InPacket
             (storeWord (storeWord (storeWord
               (storeDword (st.InBuffer st.InPacket) 0 sd.numBlocks)
               2 sd.rdBlockSize) 3 sd.wrBlockSize) 4 sd.eraseSize) }) := by
  have hne := distinct_info cfg hd
  simp [handleCmd, hcmd, hne]

/-- The first 16 bytes of a packet after the four stores of `INFO_CMD`. -/
theorem info_bytes (pkt : Nat → Nat) (nb rd wr es : Nat) :
    (List.range 16).map (storeWord (storeWord (storeWord (storeDword pkt 0 nb) 2 rd) 3 wr) 4 es)
      = [nb % 256, (nb >>> 8) % 256, (nb >>> 16) % 256, (nb >>> 24) % 256,
         rd % 256, (rd >>> 8) % 256, wr % 256, (wr >>> 8) % 256,
         es % 256, (es >>> 8) % 256,
         pkt 10, pkt 11, pkt 12, pkt 13, pkt 14, pkt 15] := by
  have hr : List.range 16 = [0, 1, 2, 3, 4, 5, 6, 7, 8, 9, 10, 11, 12, 13, 14, 15] := by decide
  rw [hr]
  simp [storeWord, storeDword, storeByte]

/-- The frame sent in answer to `INFO_CMD`. -/
theorem ServiceRequests_info_log (cfg : UsbConfig) (sd : SdState) (st : UsbState)
    (hd : cfg.distinct = true) (hidle : st.outBusy st.OutIndex = false)
    (hcmd : st.OutBuffer st.OutIndex 0 % 256 = cfg.INFO_CMD) :
    (ServiceRequests cfg sd st).log = st.log ++
      [UsbEvent.genRead st.OutIndex,
       UsbEvent.genWrite
        [sd.numBlocks % 256, (sd.numBlocks >>> 8) % 256, (sd.numBlocks >>> 16) % 256,
         (sd.numBlocks >>> 24) % 256,
         sd.rdBlockSize % 256, (sd.rdBlockSize >>> 8) % 256,
         sd.wrBlockSize % 256, (sd.wrBlockSize >>> 8) % 256,
         sd.eraseSize % 256, (sd.eraseSize >>> 8) % 256,
         st.InBuffer st.InPacket 10, st.InBuffer st.InPacket 11, st.InBuffer st.InPacket 12,
         st.InBuffer st.InPacket 13, st.InBuffer st.InPacket 14, st.InBuffer st.InPacket 15]] := by
  rw [ServiceRequests_eq cfg sd st _ hidle rfl, handleCmd_info cfg sd _ hd hcmd]
  simp [setPacket, info_bytes]

/-- The `switch` statement for a command byte that matches no case label. -/
theorem handleCmd_default (cfg : UsbConfig) (sd : SdState) (st : UsbState)
    (h1 : st.OutBuffer st.OutPacket 0 % 256 ≠ cfg.ID_BOARD_CMD)
    (h2 : st.OutBuffer st.OutPacket 0 % 256 ≠ cfg.INFO_CMD)
    (h3 : st.OutBuffer st.OutPacket 0 % 256 ≠ cfg.READ_EEDATA_CMD)
    (h4 : st.OutBuffer st.OutPacket 0 % 256 ≠ cfg.WRITE_EEDATA_CMD)
    (h5 : st.OutBuffer st.OutPacket 0 % 256 ≠ cfg.RESET_CMD) :
    handleCmd cfg sd st = (some 0, st) := by
  simp [handleCmd, h1, h2, h3, h4, h5]

/-- The `switch` statement for `READ_EEDATA_CMD`: `num_return_bytes` is the final
`buffer_cntr` plus 5, as a byte. -/
theorem handleCmd_read_eedata (cfg : UsbConfig) (sd : SdState) (st : UsbState)
    (hd : cfg.distinct = true) (hcmd : st.OutBuffer st.OutPacket 0 % 256 = cfg.READ_EEDATA_CMD) :
    (handleCmd cfg sd st).1 =
      some (((readEeLoop st.eeprom (st.InPacket * cfg.USBGEN_EP_SIZE)
        ((2 + st.OutPacket) * cfg.USBGEN_EP_SIZE) 0xFF 0
        (storeByte (usbRam cfg st) (st.InPacket * cfg.USBGEN_EP_SIZE)
          cfg.READ_EEDATA_CMD)).1 + 5) % 256) ∧
    (handleCmd cfg sd st).2.log = st.log ∧
    (handleCmd cfg sd st).2.OutIndex = st.OutIndex := by
  obtain ⟨h1, h2⟩ := distinct_read_eedata cfg hd
  simp [handleCmd, hcmd, h1, h2, setUsbRam]

/-- As long as the stores of the `READ_EEDATA_CMD` loop stay below the byte
`OutPacket->len`, the loop ends with `buffer_cntr` equal to that byte. -/
theorem readEeLoop_fst (eeprom : Nat → Nat) (inBase outBase L : Nat)
    (hbelow : inBase + 5 + L ≤ outBase + 1) (fuel c : Nat) (ram : Nat → Nat)
    (hlen : ram (outBase + 1) % 256 = L) (hc : c ≤ L) (hfuel : L ≤ c + fuel) :
    (readEeLoop eeprom inBase outBase fuel c ram).1 = L := by
  induction fuel generalizing c ram with
  | zero =>
    show c = L
    omega
  | succ n ih =>
    rw [readEeLoop]
    by_cases hlt : c < L
    · rw [hlen, if_pos hlt]
      apply ih
      · have hne : outBase + 1 ≠ inBase + 5 + c := by omega
        simp only [storeByte, hne, if_false]
        exact hlen
      · omega
      · omega
    · rw [hlen, if_neg hlt]
      show c = L
      omega

/-- The frame sent in answer to `READ_EEDATA_CMD` has `(len + 5) mod 256` bytes,
as long as the stores of the loop stay below the byte `OutPacket->len`. -/
theorem ServiceRequests_read_eedata_log (cfg : UsbConfig) (sd : SdState) (st : UsbState)
    (L : Nat) (hd : cfg.distinct = true) (hidle : st.outBusy st.OutIndex = false)
    (hcmd : st.OutBuffer st.OutIndex 0 % 256 = cfg.READ_EEDATA_CMD)
    (hlen : usbRam cfg st ((2 + st.OutIndex) * cfg.USBGEN_EP_SIZE + 1) % 256 = L)
    (hbelow : st.InPacket * cfg.USBGEN_EP_SIZE + 5 + L
      ≤ (2 + st.OutIndex) * cfg.USBGEN_EP_SIZE + 1)
    (hne : (L + 5) % 256 ≠ 0) :
    ∃ frame, (ServiceRequests cfg sd st).log =
        st.log ++ [UsbEvent.genRead st.OutIndex, UsbEvent.genWrite frame] ∧
      frame.length = (L + 5) % 256 := by
  obtain ⟨h1, h2, h3⟩ := handleCmd_read_eedata cfg sd
    { st with OutPacket := st.OutIndex, OutPacketLength := st.outLength st.OutIndex,
              blink_counter := NUM_ACTIVITY_BLINKS } hd hcmd
  have hL : L < 256 := by rw [← hlen]; exact Nat.mod_lt _ (by decide)
  have hcount := readEeLoop_fst st.eeprom (st.InPacket * cfg.USBGEN_EP_SIZE)
    ((2 + st.OutIndex) * cfg.USBGEN_EP_SIZE) L hbelow 0xFF 0
    (storeByte (usbRam cfg st) (st.InPacket * cfg.USBGEN_EP_SIZE) cfg.READ_EEDATA_CMD)
    (by
      have hne2 : (2 + st.OutIndex) * cfg.USBGEN_EP_SIZE + 1
          ≠ st.InPacket * cfg.USBGEN_EP_SIZE := by omega
      simp only [storeByte, hne2, if_false]
      exact hlen)
    (Nat.zero_le L) (by omega)
  have h1b : (handleCmd cfg sd
      { st with OutPacket := st.OutIndex, OutPacketLength := st.outLength st.OutIndex,
                blink_counter := NUM_ACTIVITY_BLINKS }).1 = some ((L + 5) % 256) := by
    rw [h1]
    exact congrArg (fun x => some ((x + 5) % 256)) hcount
  rw [ServiceRequests_eq cfg sd st _ hidle rfl]
  simp only [h1b, h2, h3, hne, ne_eq, not_false_eq_true, if_true]
  exact ⟨_, rfl, by simp⟩

set_option maxRecDepth 100000 in
/-- The `READ_EEDATA_CMD` loop tests `OutPacket->len` anew in every iteration:
with an endpoint size of 64 and the request `04 FA 00`, the store to
`InPacket->data[124]` overwrites `OutPacket->len` with the EEPROM byte 124, the
loop ends with `buffer_cntr = 125` and `num_return_bytes` is 130. -/
theorem handleCmd_read_eedata_overwrites_len :
    (handleCmd sampleConfig (cardState (streamOf [])) (usbBench [0x04, 250, 0x00] 0)).1
      = some 130 := by
  decide

/-- `InitSd` keeps the card parameters within the ranges of their C types. -/
theorem InitSd_typed (s : SdState) (hn : s.numBlocks < 2 ^ 32) (hw : s.wrBlockSize < 2 ^ 16)
    (hr : s.rdBlockSize < 2 ^ 16) (he : s.eraseSize < 2 ^ 8) :
    (InitSd s).2.numBlocks < 2 ^ 32 ∧ (InitSd s).2.wrBlockSize < 2 ^ 16 ∧
    (InitSd s).2.rdBlockSize < 2 ^ 16 ∧ (InitSd s).2.eraseSize < 2 ^ 8 := by
  by_cases h : (InitSd s).1 = 0
  · obtain ⟨c, _, en, ew, er, ee⟩ := InitSd_decode s h
    have hb : ∀ i, (fun i => upcoming s.spi (c + i)) i < 256 := fun i => upcoming_lt _ _
    obtain ⟨_, _, _, _, hhi⟩ := decodeCsd_numBlocks _ hb
    obtain ⟨bw, hbw, br, hbr⟩ := decodeCsd_blockSizes _ hb
    have hes := decodeCsd_eraseSize (fun i => upcoming s.spi (c + i))
    rw [en, ew, er, ee, bw, br, hes]
    refine ⟨by omega, ?_, ?_, ?_⟩
    · have := (two_pow_bounds hbw).2; omega
    · have := (two_pow_bounds hbr).2; omega
    · split <;> decide
  · obtain ⟨spi2, hs⟩ := InitSd_of_fail s h
    rw [hs]
    exact ⟨hn, hw, hr, he⟩

/-! # The claims -/

/-! ## The session: `OpenSd` -/

/-- C1: for every prior state, every mode and every `blockIdx >= numBlocks`,
`OpenSd` returns 3 and leaves the session closed: `open`, `read` and `write`
are false and `ptr` is 0. Nothing is sent to the card and the card parameters
are untouched. -/
theorem OpenSd_out_of_range (s : SdState) (blockIdx mode : Nat) (h : s.numBlocks ≤ blockIdx) :
    (OpenSd blockIdx mode s).1 = 3 ∧
    (OpenSd blockIdx mode s).2.currSdBlockStatus.isOpen = false ∧
    (OpenSd blockIdx mode s).2.currSdBlockStatus.read = false ∧
    (OpenSd blockIdx mode s).2.currSdBlockStatus.write = false ∧
    (OpenSd blockIdx mode s).2.currSdBlockStatus.ptr = 0 ∧
    (OpenSd blockIdx mode s).2.spi.log = s.spi.log ∧
    (OpenSd blockIdx mode s).2.numBlocks = s.numBlocks := by
  have hlt : ¬ blockIdx < s.numBlocks := Nat.not_lt.mpr h
  simp [OpenSd, hlt]

/-- C1 at a concrete input: block 8 of an 8-block card, with block 3 open for
writing before the call. -/
theorem OpenSd_out_of_range_witness :
    (cardState (streamOf [])).numBlocks ≤ 8 ∧
    ((OpenSd 8 WRITE_BLOCK (cardState (streamOf []))).1 = 3 ∧
     (OpenSd 8 WRITE_BLOCK (cardState (streamOf []))).2.currSdBlockStatus.isOpen = false ∧
     (OpenSd 8 WRITE_BLOCK (cardState (streamOf []))).2.currSdBlockStatus.read = false ∧
     (OpenSd 8 WRITE_BLOCK (cardState (streamOf []))).2.currSdBlockStatus.write = false ∧
     (OpenSd 8 WRITE_BLOCK (cardState (streamOf []))).2.currSdBlockStatus.ptr = 0 ∧
     (OpenSd 8 WRITE_BLOCK (cardState (streamOf []))).2.spi.log = (cardState (streamOf [])).spi.log ∧
     (OpenSd 8 WRITE_BLOCK (cardState (streamOf []))).2.numBlocks
       = (cardState (streamOf [])).numBlocks) :=
  ⟨by decide, OpenSd_out_of_range (cardState (streamOf [])) 8 WRITE_BLOCK (by decide)⟩

/-- C2: for `blockIdx < numBlocks`, `OpenSd` in mode `READ_BLOCK` runs
`PrepSdForDataIo` with command `0x11` and argument `blockIdx * rdBlockSize`
(as a 32-bit product), in mode `WRITE_BLOCK` with command `0x18` and argument
`blockIdx * wrBlockSize`. If the handshake returns 0, `OpenSd` returns 0 and the
session is open in exactly that mode, with `blockIdx` stored and `ptr = 0`;
otherwise `OpenSd` returns 1 (read) or 2 (write) and `open`, `read`, `write` are
all false. -/
theorem OpenSd_in_range (s : SdState) (blockIdx : Nat) (h : blockIdx < s.numBlocks) :
    OpenSd blockIdx READ_BLOCK s =
      (if (PrepSdForDataIo 0x11 ((blockIdx * s.rdBlockSize) % 2 ^ 32) s.spi).1 = 0 then
        (0, { s with
                currSdBlockStatus :=
                  { isOpen := true, write := false, read := true, blockIdx := blockIdx, ptr := 0 },
                spi := (PrepSdForDataIo 0x11 ((blockIdx * s.rdBlockSize) % 2 ^ 32) s.spi).2 })
      else
        (1, { s with
                currSdBlockStatus :=
                  { isOpen := false, write := false, read := false, blockIdx := blockIdx, ptr := 0 },
                spi := (PrepSdForDataIo 0x11 ((blockIdx * s.rdBlockSize) % 2 ^ 32) s.spi).2 })) ∧
    OpenSd blockIdx WRITE_BLOCK s =
      (if (PrepSdForDataIo 0x18 ((blockIdx * s.wrBlockSize) % 2 ^ 32) s.spi).1 = 0 then
        (0, { s with
                currSdBlockStatus :=
                  { isOpen := true, write := true, read := false, blockIdx := blockIdx, ptr := 0 },
                spi := (PrepSdForDataIo 0x18 ((blockIdx * s.wrBlockSize) % 2 ^ 32) s.spi).2 })
      else
        (2, { s with
                currSdBlockStatus :=
                  { isOpen := false, write := false, read := false, blockIdx := blockIdx, ptr := 0 },
                spi := (PrepSdForDataIo 0x18 ((blockIdx * s.wrBlockSize) % 2 ^ 32) s.spi).2 })) := by
  constructor
  · by_cases hp : (PrepSdForDataIo 0x11 ((blockIdx * s.rdBlockSize) % 2 ^ 32) s.spi).1 = 0
    · simp [OpenSd, h, READ_BLOCK, READ_SINGLE_BLOCK, hp]
    · simp [OpenSd, h, READ_BLOCK, READ_SINGLE_BLOCK, hp]
  · by_cases hp : (PrepSdForDataIo 0x18 ((blockIdx * s.wrBlockSize) % 2 ^ 32) s.spi).1 = 0
    · simp [OpenSd, h, READ_BLOCK, WRITE_BLOCK, WRITE_SINGLE_BLOCK, hp]
    · simp [OpenSd, h, READ_BLOCK, WRITE_BLOCK, WRITE_SINGLE_BLOCK, hp]

/-- C2 at a concrete input: block 5 of an 8-block card is opened for reading on
a bus that answers the command with status 0 and then the data-start token; the
call returns 0 and the session is open for reading at block 5. -/
theorem OpenSd_in_range_witness :
    5 < (cardState (streamOf [0x00, 0xFE])).numBlocks ∧
    (OpenSd 5 READ_BLOCK (cardState (streamOf [0x00, 0xFE]))).1 = 0 ∧
    (OpenSd 5 READ_BLOCK (cardState (streamOf [0x00, 0xFE]))).2.currSdBlockStatus =
      { isOpen := true, write := false, read := true, blockIdx := 5, ptr := 0 } := by
  have hw := (OpenSd_in_range (cardState (streamOf [0x00, 0xFE])) 5 (by decide)).1
  have hp : (PrepSdForDataIo 0x11 ((5 * (cardState (streamOf [0x00, 0xFE])).rdBlockSize) % 2 ^ 32)
      (cardState (streamOf [0x00, 0xFE])).spi).1 = 0 := by decide
  rw [if_pos hp] at hw
  rw [hw]
  exact ⟨by decide, rfl, rfl⟩


/-! ## The card parameters: `GetSdParameters` -/

/-- C3: after a successful `SEND_CSD` handshake `GetSdParameters` returns 0, reads
exactly 16 bytes and sets `numBlocks = (C_SIZE + 1) * 2 ^ (C_SIZE_MULT + 2)`, the
exact product of the 12-bit `C_SIZE` and 3-bit `C_SIZE_MULT` fields of the bytes
read, without truncation in the 16-bit `c_size` or the 32-bit result; hence
`4 <= numBlocks <= 2 ^ 21`. -/
theorem GetSdParameters_numBlocks (s : SdState)
    (h : (PrepSdForDataIo SEND_CSD 0 s.spi).1 = 0) :
    (GetSdParameters s).1 = 0 ∧
    Advanced (PrepSdForDataIo SEND_CSD 0 s.spi).2 (GetSdParameters s).2.spi 16 ∧
    (GetSdParameters s).2.numBlocks =
      ((((csdRead s 6 &&& 3) <<< 10) ||| (csdRead s 7 <<< 2) ||| (csdRead s 8 >>> 6)) + 1) *
        2 ^ ((((csdRead s 9 &&& 3) <<< 1) ||| (csdRead s 10 >>> 7)) + 2) ∧
    (((csdRead s 6 &&& 3) <<< 10) ||| (csdRead s 7 <<< 2) ||| (csdRead s 8 >>> 6)) < 2 ^ 12 ∧
    (((csdRead s 9 &&& 3) <<< 1) ||| (csdRead s 10 >>> 7)) < 2 ^ 3 ∧
    4 ≤ (GetSdParameters s).2.numBlocks ∧ (GetSdParameters s).2.numBlocks ≤ 2 ^ 21 := by
  obtain ⟨h0, hn, _, _, _, _, hadv⟩ := GetSdParameters_ok s h
  obtain ⟨e, hC, hM, hlo, hhi⟩ :=
    decodeCsd_numBlocks (upcoming (PrepSdForDataIo SEND_CSD 0 s.spi).2) (upcoming_lt _)
  rw [← hn] at e hlo hhi
  exact ⟨h0, hadv, e, hC, hM, hlo, hhi⟩

/-- C3 at a concrete input: the register `sampleCsd` has `C_SIZE = 3874` and
`C_SIZE_MULT = 7`, and 3875 * 512 = 1984000 blocks. -/
theorem GetSdParameters_numBlocks_witness :
    (PrepSdForDataIo SEND_CSD 0 (csdBench sampleCsd).spi).1 = 0 ∧
    (GetSdParameters (csdBench sampleCsd)).2.numBlocks =
      ((((csdRead (csdBench sampleCsd) 6 &&& 3) <<< 10) ||| (csdRead (csdBench sampleCsd) 7 <<< 2)
          ||| (csdRead (csdBench sampleCsd) 8 >>> 6)) + 1) *
        2 ^ ((((csdRead (csdBench sampleCsd) 9 &&& 3) <<< 1)
          ||| (csdRead (csdBench sampleCsd) 10 >>> 7)) + 2) ∧
    (GetSdParameters (csdBench sampleCsd)).2.numBlocks = 1984000 :=
  ⟨by decide,
   (GetSdParameters_numBlocks (csdBench sampleCsd) (by decide)).2.2.1,
   by decide⟩

/-- C4: after a successful `SEND_CSD` handshake `GetSdParameters` sets
`wrBlockSize = 2 ^ e_w` with `e_w = ((csd[12] & 3) << 2) | (csd[13] >> 6)` and
`rdBlockSize = 2 ^ e_r` with `e_r = csd[5] & 0x0F`; both exponents are below
16, so both sizes are exact powers of two between 1 and 32768 and are never
truncated to 0 by the 16-bit variables. -/
theorem GetSdParameters_blockSizes (s : SdState)
    (h : (PrepSdForDataIo SEND_CSD 0 s.spi).1 = 0) :
    (GetSdParameters s).2.wrBlockSize
      = 2 ^ (((csdRead s 12 &&& 3) <<< 2) ||| (csdRead s 13 >>> 6)) ∧
    (((csdRead s 12 &&& 3) <<< 2) ||| (csdRead s 13 >>> 6)) < 16 ∧
    (GetSdParameters s).2.rdBlockSize = 2 ^ (csdRead s 5 &&& 0x0F) ∧
    (csdRead s 5 &&& 0x0F) < 16 ∧
    1 ≤ (GetSdParameters s).2.wrBlockSize ∧ (GetSdParameters s).2.wrBlockSize ≤ 32768 ∧
    1 ≤ (GetSdParameters s).2.rdBlockSize ∧ (GetSdParameters s).2.rdBlockSize ≤ 32768 := by
  obtain ⟨_, _, hw, hr, _, _, _⟩ := GetSdParameters_ok s h
  obtain ⟨ew, hew, er, her⟩ :=
    decodeCsd_blockSizes (upcoming (PrepSdForDataIo SEND_CSD 0 s.spi).2) (upcoming_lt _)
  rw [← hw] at ew
  rw [← hr] at er
  refine ⟨ew, hew, er, her, ?_, ?_, ?_, ?_⟩
  · rw [ew]; exact (two_pow_bounds hew).1
  · rw [ew]; exact (two_pow_bounds hew).2
  · rw [er]; exact (two_pow_bounds her).1
  · rw [er]; exact (two_pow_bounds her).2

/-- C4 at a concrete input: the register `sampleCsd` has both exponents equal
to 9, so both block sizes are 512. -/
theorem GetSdParameters_blockSizes_witness :
    (PrepSdForDataIo SEND_CSD 0 (csdBench sampleCsd).spi).1 = 0 ∧
    (GetSdParameters (csdBench sampleCsd)).2.wrBlockSize
      = 2 ^ (((csdRead (csdBench sampleCsd) 12 &&& 3) <<< 2)
          ||| (csdRead (csdBench sampleCsd) 13 >>> 6)) ∧
    (GetSdParameters (csdBench sampleCsd)).2.wrBlockSize = 512 ∧
    (GetSdParameters (csdBench sampleCsd)).2.rdBlockSize = 512 :=
  ⟨by decide,
   (GetSdParameters_blockSizes (csdBench sampleCsd) (by decide)).1,
   by decide, by decide⟩

/-- C5, the code at the failing inputs: with the uniform-erase flag clear,
`GetSdParameters` stores the constant `0x12` in `eraseSize`. For the register
`sampleCsdSectors` the one-indexed granularity field is 32, for `zeroCsd` it is
1; both fetches succeed and both leave `eraseSize = 0x12`. -/
theorem GetSdParameters_eraseSize_constant :
    (GetSdParameters (csdBench sampleCsdSectors)).1 = 0 ∧
    csdRead (csdBench sampleCsdSectors) 10 &&& 0x40 = 0 ∧
    1 + (((csdRead (csdBench sampleCsdSectors) 10 &&& 0x3F) <<< 1)
      ||| (csdRead (csdBench sampleCsdSectors) 11 >>> 7)) = 32 ∧
    (GetSdParameters (csdBench sampleCsdSectors)).2.eraseSize = 0x12 ∧
    (GetSdParameters (csdBench zeroCsd)).1 = 0 ∧
    csdRead (csdBench zeroCsd) 10 &&& 0x40 = 0 ∧
    1 + (((csdRead (csdBench zeroCsd) 10 &&& 0x3F) <<< 1)
      ||| (csdRead (csdBench zeroCsd) 11 >>> 7)) = 1 ∧
    (GetSdParameters (csdBench zeroCsd)).2.eraseSize = 0x12 := by
  refine ⟨by decide, by decide, by decide, by decide, by decide, by decide, by decide, by decide⟩

/-! ## The command frame: `SendSdCmd` -/

/-- C9: for a command byte `cmd` and a 32-bit argument `arg`, `SendSdCmd` sets
`SD_CS = 0`, writes the eight bytes `0xFF`, `cmd | 0x40`, the four bytes of
`arg` most significant first, `0x95`, `0xFF`, in that order, then reads the bus
exactly once and returns the byte read; the four argument bytes reassemble,
most significant first, to `arg`. -/
theorem SendSdCmd_frame (cmd arg : Nat) (spi : Spi) (hcmd : cmd < 256) (harg : arg < 2 ^ 32) :
    (SendSdCmd cmd arg spi).2.log = spi.log ++
      [SpiEvent.cs 0, SpiEvent.write 0xFF, SpiEvent.write (cmd ||| 0x40),
       SpiEvent.write ((arg >>> 24) &&& 0xFF), SpiEvent.write ((arg >>> 16) &&& 0xFF),
       SpiEvent.write ((arg >>> 8) &&& 0xFF), SpiEvent.write (arg &&& 0xFF),
       SpiEvent.write 0x95, SpiEvent.write 0xFF, SpiEvent.read (spi.resp spi.pos % 256)] ∧
    (SendSdCmd cmd arg spi).1 = spi.resp spi.pos % 256 ∧
    (SendSdCmd cmd arg spi).2.pos = spi.pos + 1 ∧
    (SendSdCmd cmd arg spi).2.resp = spi.resp ∧
    ((arg >>> 24) &&& 0xFF) * 2 ^ 24 + ((arg >>> 16) &&& 0xFF) * 2 ^ 16
      + ((arg >>> 8) &&& 0xFF) * 2 ^ 8 + (arg &&& 0xFF) = arg := by
  have hand : ∀ x, x &&& 0xFF = x % 256 := fun x => Nat.and_pow_two_sub_one_eq_mod x 8
  have hc : (cmd ||| 0x40) % 256 = cmd ||| 0x40 :=
    Nat.mod_eq_of_lt (Nat.or_lt_two_pow (n := 8) hcmd (by decide))
  have hadv := SendSdCmd_advanced cmd arg spi
  refine ⟨?_, ?_, hadv.2, hadv.1, ?_⟩
  · rw [SendSdCmd_log, hc, hand, hand, hand, hand]; rfl
  · rw [SendSdCmd_fst]; rfl
  · rw [hand, hand, hand, hand]
    simp only [Nat.shiftRight_eq_div_pow]
    omega

/-- C9 at a concrete input: `READ_SINGLE_BLOCK` with argument `0x12345678`. -/
theorem SendSdCmd_frame_witness :
    READ_SINGLE_BLOCK < 256 ∧ 0x12345678 < 2 ^ 32 ∧
    (SendSdCmd READ_SINGLE_BLOCK 0x12345678 (spiOf (streamOf [0x05]))).2.log =
      [SpiEvent.cs 0, SpiEvent.write 0xFF, SpiEvent.write 0x51,
       SpiEvent.write 0x12, SpiEvent.write 0x34, SpiEvent.write 0x56, SpiEvent.write 0x78,
       SpiEvent.write 0x95, SpiEvent.write 0xFF, SpiEvent.read 0x05] ∧
    (SendSdCmd READ_SINGLE_BLOCK 0x12345678 (spiOf (streamOf [0x05]))).1 = 0x05 := by
  have h := SendSdCmd_frame READ_SINGLE_BLOCK 0x12345678 (spiOf (streamOf [0x05]))
    (by decide) (by decide)
  refine ⟨by decide, by decide, ?_, ?_⟩
  · rw [h.1]; decide
  · rw [h.2.1]; decide


/-! ## The data-token handshake: `PrepSdForDataIo` -/

/-- C6, the code at the failing input: on a bus stuck at `0x00` the command is
answered with status `0x00` and the first token poll reads `0x00`; the
data-start token `0xFE` never appears, yet `PrepSdForDataIo` returns 0 and
`OpenSd` reports success with the session open. -/
theorem PrepSdForDataIo_success_without_token :
    (PrepSdForDataIo READ_SINGLE_BLOCK 0 (spiOf (fun _ => 0x00))).1 = 0 ∧
    (∀ k, upcoming (spiOf (fun _ => 0x00)) k ≠ 0xFE) ∧
    (OpenSd 5 READ_BLOCK (cardState (fun _ => 0x00))).1 = 0 ∧
    (OpenSd 5 READ_BLOCK (cardState (fun _ => 0x00))).2.currSdBlockStatus.isOpen = true := by
  refine ⟨by decide, ?_, by decide, by decide⟩
  intro k
  simp [upcoming, spiOf]

/-- C7 as stated fails: on a bus that answers the command with status `0x00` and
then reads `0x80`, `PrepSdForDataIo` returns the timeout value `0x80` although
the token polls did not all read `0xFF`. -/
theorem PrepSdForDataIo_timeout_not_distinct :
    ¬ ((PrepSdForDataIo READ_SINGLE_BLOCK 0 (spiOf (streamOf [0x00, 0x80]))).1 = 0x80 ↔
        ∃ k, k < 255 ∧ upcoming (spiOf (streamOf [0x00, 0x80])) k = 0 ∧
          (∀ i, i < k → upcoming (spiOf (streamOf [0x00, 0x80])) i ≠ 0) ∧
          ∀ j, j < 255 → upcoming (spiOf (streamOf [0x00, 0x80])) (k + 1 + j) = 0xFF) := by
  intro hiff
  obtain ⟨k, _, _, hnz, hall⟩ := hiff.mp (by decide)
  have hk0 : k = 0 := by
    cases k with
    | zero => rfl
    | succ n => exact absurd (by decide) (hnz 0 (Nat.succ_pos n))
  subst hk0
  exact absurd (hall 0 (by decide)) (by decide)

/-- C7, amended: `PrepSdForDataIo` returns `0x80` exactly when the status phase
ended with a zero status and either all 255 token polls read `0xFF` or the first
poll that is not `0xFF` reads `0x80` itself. A protocol-error byte other than
`0x80` never produces that value. -/
theorem PrepSdForDataIo_timeout_iff (cmd arg : Nat) (spi : Spi) :
    (PrepSdForDataIo cmd arg spi).1 = 0x80 ↔
      ∃ k, k < 255 ∧ upcoming spi k = 0 ∧ (∀ i, i < k → upcoming spi i ≠ 0) ∧
        ((∀ j, j < 255 → upcoming spi (k + 1 + j) = 0xFF) ∨
         (∃ j, j < 255 ∧ upcoming spi (k + 1 + j) = 0x80 ∧
            ∀ i, i < j → upcoming spi (k + 1 + i) = 0xFF)) := by
  constructor
  · intro h
    rcases PrepSdForDataIo_cases cmd arg spi with ⟨_, hr, _⟩ | ⟨k, hk, hz, hnz, hc⟩
    · rw [hr] at h; exact absurd h (by decide)
    · refine ⟨k, hk, hz, hnz, ?_⟩
      rcases hc with ⟨hall, _, _⟩ | ⟨j, hj, hne, hidle, hr, _⟩
      · exact Or.inl hall
      · right
        refine ⟨j, hj, ?_, hidle⟩
        rw [hr] at h
        by_cases hFE : upcoming spi (k + 1 + j) = 0xFE
        · simp [hFE] at h
        · simpa [hFE] using h
  · rintro ⟨k, hk, hz, hnz, hd⟩
    rcases PrepSdForDataIo_cases cmd arg spi with ⟨hall, _, _⟩ | ⟨k2, hk2, hz2, hnz2, hc⟩
    · exact absurd hz (hall k hk)
    · have hkk : k = k2 := first_unique (P := fun i => upcoming spi i = 0) hz hz2 hnz hnz2
      subst hkk
      rcases hc with ⟨_, hr, _⟩ | ⟨j2, hj2, hne2, hidle2, hr, _⟩
      · exact hr
      · rcases hd with hall | ⟨j, hj, h80, hidle⟩
        · exact absurd (hall j2 hj2) hne2
        · have hne : upcoming spi (k + 1 + j) ≠ 0xFF := by rw [h80]; decide
          have hjj : j = j2 :=
            first_unique (P := fun i => upcoming spi (k + 1 + i) ≠ 0xFF) hne hne2
              (fun i hi => not_not.mpr (hidle i hi)) (fun i hi => not_not.mpr (hidle2 i hi))
          subst hjj
          rw [hr, h80]; decide

/-! ## Bounded retries -/

/-- C8: `PrepSdForDataIo` returns after at most 510 bus reads and `InitSd` after
at most 1291, having written the command byte of `GO_IDLE_STATE` at most 255
times and that of `INIT_CARD` at most 255 times. When a retry budget is
exhausted the result is not 0: `PrepSdForDataIo` returns 1 if 255 status bytes
are all non-zero and `0x80` if 255 token polls all read `0xFF`; `InitSd` returns
1 if 255 replies to `GO_IDLE_STATE` are all different from `0x01` and 2 if 255
rounds of `APP_CMD`, `INIT_CARD` never read `0x00` for `INIT_CARD`. -/
theorem card_io_bounded (cmd arg : Nat) (spi : Spi) (s : SdState) :
    (∃ d, d ≤ 510 ∧ Advanced spi (PrepSdForDataIo cmd arg spi).2 d) ∧
    ((∀ i, i < 255 → upcoming spi i ≠ 0) → (PrepSdForDataIo cmd arg spi).1 = 1) ∧
    (∀ k, k < 255 → upcoming spi k = 0 → (∀ i, i < k → upcoming spi i ≠ 0) →
      (∀ j, j < 255 → upcoming spi (k + 1 + j) = 0xFF) →
      (PrepSdForDataIo cmd arg spi).1 = 0x80) ∧
    (∃ d, d ≤ 1291 ∧ Advanced s.spi (InitSd s).2.spi d) ∧
    sent GO_IDLE_STATE (InitSd s).2.spi ≤ sent GO_IDLE_STATE s.spi + 255 ∧
    sent INIT_CARD (InitSd s).2.spi ≤ sent INIT_CARD s.spi + 255 ∧
    ((∀ i, i < 255 → upcoming s.spi i ≠ 1) → (InitSd s).1 = 1) ∧
    (∀ k, k < 255 → upcoming s.spi k = 1 → (∀ i, i < k → upcoming s.spi i ≠ 1) →
      (∀ m, m < 255 → upcoming s.spi (k + 1 + 2 * m) ≠ 0xFF ∧
        upcoming s.spi (k + 1 + 2 * m + 1) ≠ 0) →
      (InitSd s).1 = 2) := by
  refine ⟨PrepSdForDataIo_advanced cmd arg spi, PrepSdForDataIo_status_timeout cmd arg spi,
    PrepSdForDataIo_token_timeout cmd arg spi, InitSd_advanced s, ?_, ?_,
    (InitSd_eq_one_iff s).mpr, fun k hk h1 hn1 => (InitSd_eq_two_iff s k hk h1 hn1).mpr⟩
  · have h := count_InitSd 0x40 s (by decide) (by decide) (by decide) (by decide) (by decide)
    simpa [sent, GO_IDLE_STATE] using h
  · have h := count_InitSd 0x69 s (by decide) (by decide) (by decide) (by decide) (by decide)
    simpa [sent, INIT_CARD] using h

/-- C8 at a concrete input: on a bus stuck at `0xFF`, `InitSd` returns 1 and
`PrepSdForDataIo` returns 1. -/
theorem card_io_bounded_witness :
    (InitSd (powerUp (fun _ => 0xFF))).1 = 1 ∧
    (PrepSdForDataIo READ_SINGLE_BLOCK 0 (spiOf (fun _ => 0xFF))).1 = 1 :=
  ⟨(card_io_bounded READ_SINGLE_BLOCK 0 (spiOf (fun _ => 0xFF))
      (powerUp (fun _ => 0xFF))).2.2.2.2.2.2.1 (fun _ _ => by simp [upcoming, powerUp, spiOf]),
   (card_io_bounded READ_SINGLE_BLOCK 0 (spiOf (fun _ => 0xFF))
      (powerUp (fun _ => 0xFF))).2.1 (fun _ _ => by simp [upcoming, spiOf])⟩

/-! ## The result codes of `InitSd` -/

/-- C10: the result of `InitSd` is one of 0, 1, 2, 3, 4. It is 1 exactly when
none of the 255 replies to `GO_IDLE_STATE` is `0x01`. Once read `k` answered
`0x01`, with the reply to the `m`-th `APP_CMD` at read `k + 1 + 2 * m` and the
reply to the `m`-th `INIT_CARD` at read `k + 1 + 2 * m + 1`: the result is 3
exactly when some `APP_CMD` is answered `0xFF` before any `INIT_CARD` is answered
`0x00`; it is 2 exactly when 255 rounds pass without either; and when round `m`
answers `INIT_CARD` with `0x00` the rest of the call is `GetSdParameters`, the
result being 4 exactly when that returns non-zero and 0 exactly when it returns
0. Results 0 and 4 occur only after such a handshake, and with result 0 the card
parameters are the decoding of the last 16 bytes read. -/
theorem InitSd_result_codes (s : SdState) :
    ((InitSd s).1 = 0 ∨ (InitSd s).1 = 1 ∨ (InitSd s).1 = 2 ∨ (InitSd s).1 = 3 ∨
      (InitSd s).1 = 4) ∧
    ((InitSd s).1 = 1 ↔ ∀ i, i < 255 → upcoming s.spi i ≠ 1) ∧
    (∀ k, k < 255 → upcoming s.spi k = 1 → (∀ i, i < k → upcoming s.spi i ≠ 1) →
      ((InitSd s).1 = 3 ↔
        ∃ m, m < 255 ∧ upcoming s.spi (k + 1 + 2 * m) = 0xFF ∧
          ∀ i, i < m → upcoming s.spi (k + 1 + 2 * i) ≠ 0xFF ∧
            upcoming s.spi (k + 1 + 2 * i + 1) ≠ 0) ∧
      ((InitSd s).1 = 2 ↔
        ∀ m, m < 255 → upcoming s.spi (k + 1 + 2 * m) ≠ 0xFF ∧
          upcoming s.spi (k + 1 + 2 * m + 1) ≠ 0) ∧
      (∀ m, m < 255 → upcoming s.spi (k + 1 + 2 * m) ≠ 0xFF →
        upcoming s.spi (k + 1 + 2 * m + 1) = 0 →
        (∀ i, i < m → upcoming s.spi (k + 1 + 2 * i) ≠ 0xFF ∧
          upcoming s.spi (k + 1 + 2 * i + 1) ≠ 0) →
        ∃ spi1, Advanced s.spi spi1 (k + 1 + 2 * m + 2) ∧
          (InitSd s).2 = (GetSdParameters { s with spi := spi1 }).2 ∧
          ((InitSd s).1 = 4 ↔ (GetSdParameters { s with spi := spi1 }).1 ≠ 0) ∧
          ((InitSd s).1 = 0 ↔ (GetSdParameters { s with spi := spi1 }).1 = 0))) ∧
    ((InitSd s).1 = 0 ∨ (InitSd s).1 = 4 →
      ∃ k m, k < 255 ∧ m < 255 ∧ upcoming s.spi k = 1 ∧
        (∀ i, i < k → upcoming s.spi i ≠ 1) ∧
        upcoming s.spi (k + 1 + 2 * m) ≠ 0xFF ∧ upcoming s.spi (k + 1 + 2 * m + 1) = 0 ∧
        (∀ i, i < m → upcoming s.spi (k + 1 + 2 * i) ≠ 0xFF ∧
          upcoming s.spi (k + 1 + 2 * i + 1) ≠ 0)) ∧
    ((InitSd s).1 = 0 →
      ∃ c, Advanced s.spi (InitSd s).2.spi (c + 16) ∧
        (InitSd s).2.numBlocks = (decodeCsd (fun i => upcoming s.spi (c + i))).numBlocks ∧
        (InitSd s).2.wrBlockSize = (decodeCsd (fun i => upcoming s.spi (c + i))).wrBlockSize ∧
        (InitSd s).2.rdBlockSize = (decodeCsd (fun i => upcoming s.spi (c + i))).rdBlockSize ∧
        (InitSd s).2.eraseSize = (decodeCsd (fun i => upcoming s.spi (c + i))).eraseSize) := by
  refine ⟨InitSd_fst_mem s, InitSd_eq_one_iff s, ?_, ?_, InitSd_decode s⟩
  · intro k hk h1 hn1
    refine ⟨InitSd_eq_three_iff s k hk h1 hn1, InitSd_eq_two_iff s k hk h1 hn1, ?_⟩
    intro m hm hnff hz hprev
    obtain ⟨spi1, hadv, he⟩ := InitSd_handshake_ok s k m hk h1 hn1 hm hnff hz hprev
    refine ⟨spi1, hadv, by rw [he], ?_, ?_⟩
    · rw [he]
      by_cases hg : (GetSdParameters { s with spi := spi1 }).1 = 0 <;> simp [hg]
    · rw [he]
      by_cases hg : (GetSdParameters { s with spi := spi1 }).1 = 0 <;> simp [hg]
  · intro h
    obtain ⟨k, m, hk, hm, h1, hn1, hnff, hz, hprev, _⟩ := InitSd_handshake_of_fst s h
    exact ⟨k, m, hk, hm, h1, hn1, hnff, hz, hprev⟩

/-- C10 at a concrete input: on `initBench` the handshake succeeds in the first
round, `InitSd` returns 0 and the card parameters are those of `sampleCsd`. -/
theorem InitSd_result_codes_witness :
    ((InitSd initBench).1 = 1 ↔ ∀ i, i < 255 → upcoming initBench.spi i ≠ 1) ∧
    (InitSd initBench).1 = 0 ∧
    (InitSd initBench).2.numBlocks = 1984000 ∧
    (InitSd initBench).2.wrBlockSize = 512 ∧
    (InitSd initBench).2.rdBlockSize = 512 :=
  ⟨(InitSd_result_codes initBench).2.1, by decide, by decide, by decide, by decide⟩


/-! ## A failed initialisation -/

/-- C11: if the four card parameters are zero, as at power-up, and `InitSd`
returns a non-zero code, then all four are still zero afterwards, and after any
further calls other than `InitSd` every `OpenSd`, for every `blockIdx` and
`mode`, returns 3 and leaves the session closed. -/
theorem InitSd_failure_is_fatal (s : SdState) (calls : List SdCall) (blockIdx mode : Nat)
    (hn : s.numBlocks = 0) (hw : s.wrBlockSize = 0) (hr : s.rdBlockSize = 0)
    (he : s.eraseSize = 0) (hfail : (InitSd s).1 ≠ 0)
    (hcalls : ∀ c, c ∈ calls → c.isSession = true) :
    (InitSd s).2.numBlocks = 0 ∧ (InitSd s).2.wrBlockSize = 0 ∧
    (InitSd s).2.rdBlockSize = 0 ∧ (InitSd s).2.eraseSize = 0 ∧
    (OpenSd blockIdx mode (runCalls calls (InitSd s).2)).1 = 3 ∧
    (OpenSd blockIdx mode (runCalls calls (InitSd s).2)).2.currSdBlockStatus.isOpen = false ∧
    (OpenSd blockIdx mode (runCalls calls (InitSd s).2)).2.currSdBlockStatus.read = false ∧
    (OpenSd blockIdx mode (runCalls calls (InitSd s).2)).2.currSdBlockStatus.write = false ∧
    (OpenSd blockIdx mode (runCalls calls (InitSd s).2)).2.currSdBlockStatus.ptr = 0 := by
  obtain ⟨spi2, hs⟩ := InitSd_of_fail s hfail
  have g1 : (InitSd s).2.numBlocks = 0 := by rw [hs]; exact hn
  have g2 : (InitSd s).2.wrBlockSize = 0 := by rw [hs]; exact hw
  have g3 : (InitSd s).2.rdBlockSize = 0 := by rw [hs]; exact hr
  have g4 : (InitSd s).2.eraseSize = 0 := by rw [hs]; exact he
  have hz : (runCalls calls (InitSd s).2).numBlocks ≤ blockIdx := by
    rw [(runCalls_params calls (InitSd s).2 hcalls).1, g1]
    exact Nat.zero_le blockIdx
  rw [OpenSd_of_ge _ blockIdx mode hz]
  exact ⟨g1, g2, g3, g4, rfl, rfl, rfl, rfl, rfl⟩

/-- C11 at a concrete input: at power-up, on a bus that answers `GO_IDLE_STATE`
with `0x01` and then idles at `0xFF`, `InitSd` returns 3; the block count stays
0 and a later `OpenSd` returns 3. -/
theorem InitSd_failure_is_fatal_witness :
    (InitSd (powerUp (streamOf [0x01]))).1 = 3 ∧
    (InitSd (powerUp (streamOf [0x01]))).2.numBlocks = 0 ∧
    (OpenSd 0 WRITE_BLOCK (runCalls [SdCall.openSd 0 READ_BLOCK, SdCall.closeSd]
      (InitSd (powerUp (streamOf [0x01]))).2)).1 = 3 :=
  ⟨by decide,
   (InitSd_failure_is_fatal (powerUp (streamOf [0x01]))
      [SdCall.openSd 0 READ_BLOCK, SdCall.closeSd] 0 WRITE_BLOCK rfl rfl rfl rfl (by decide)
      (by decide)).1,
   (InitSd_failure_is_fatal (powerUp (streamOf [0x01]))
      [SdCall.openSd 0 READ_BLOCK, SdCall.closeSd] 0 WRITE_BLOCK rfl rfl rfl rfl (by decide)
      (by decide)).2.2.2.2.1⟩

/-! ## Closing the session -/

/-- C12: for every state `s`, after `CloseSd` the flags `open`, `read`, `write`
are false and `ptr` is 0, a second `CloseSd` changes nothing, and no result code
is produced. In every state reached from a state with the initial session
record by any sequence of driver calls, if the session is not open then
`CloseSd` leaves the whole driver state, the session record included,
unchanged. -/
theorem CloseSd_idempotent (s s0 : SdState) (calls : List SdCall)
    (h0 : s0.currSdBlockStatus =
      { isOpen := false, write := false, read := false, blockIdx := 0, ptr := 0 }) :
    (CloseSd s).2.currSdBlockStatus.isOpen = false ∧
    (CloseSd s).2.currSdBlockStatus.read = false ∧
    (CloseSd s).2.currSdBlockStatus.write = false ∧
    (CloseSd s).2.currSdBlockStatus.ptr = 0 ∧
    CloseSd (CloseSd s).2 = CloseSd s ∧
    (CloseSd s).1 = none ∧
    ((runCalls calls s0).currSdBlockStatus.isOpen = false →
      (CloseSd (runCalls calls s0)).2 = runCalls calls s0 ∧
      (CloseSd (runCalls calls s0)).1 = none) := by
  refine ⟨rfl, rfl, rfl, rfl, rfl, rfl, ?_⟩
  intro hclosed
  have hinv := runCalls_record calls s0 (by rw [h0]; exact ⟨rfl, fun _ => ⟨rfl, rfl⟩⟩)
  obtain ⟨hptr, hflags⟩ := hinv
  obtain ⟨hread, hwrite⟩ := hflags hclosed
  refine ⟨?_, rfl⟩
  generalize runCalls calls s0 = t at hclosed hptr hread hwrite
  obtain ⟨nb, wb, rb, es, ⟨o, w, r, b, p⟩, spi⟩ := t
  simp only at hclosed hptr hread hwrite
  subst hclosed hptr hread hwrite
  rfl

/-- C12 at a concrete input: from power-up, open block 0 for reading (which
fails, no card was initialised), close, close again. -/
theorem CloseSd_idempotent_witness :
    (powerUp (streamOf [])).currSdBlockStatus =
      { isOpen := false, write := false, read := false, blockIdx := 0, ptr := 0 } ∧
    CloseSd (CloseSd (cardState (streamOf []))).2 = CloseSd (cardState (streamOf [])) ∧
    ((runCalls [SdCall.openSd 0 READ_BLOCK, SdCall.closeSd]
        (powerUp (streamOf []))).currSdBlockStatus.isOpen = false →
      (CloseSd (runCalls [SdCall.openSd 0 READ_BLOCK, SdCall.closeSd]
          (powerUp (streamOf [])))).2
        = runCalls [SdCall.openSd 0 READ_BLOCK, SdCall.closeSd] (powerUp (streamOf [])) ∧
      (CloseSd (runCalls [SdCall.openSd 0 READ_BLOCK, SdCall.closeSd]
          (powerUp (streamOf [])))).1 = none) :=
  ⟨rfl,
   (CloseSd_idempotent (cardState (streamOf [])) (powerUp (streamOf []))
      [SdCall.openSd 0 READ_BLOCK, SdCall.closeSd] rfl).2.2.2.2.1,
   (CloseSd_idempotent (cardState (streamOf [])) (powerUp (streamOf []))
      [SdCall.openSd 0 READ_BLOCK, SdCall.closeSd] rfl).2.2.2.2.2.2⟩

/-! ## Reading and writing a block -/

/-- C13 as stated fails: with the session closed, `ReadSd` and `WriteSd` produce
no result code at all, hence no failure code. -/
theorem ReadSd_WriteSd_no_result :
    (powerUp (streamOf [])).currSdBlockStatus.isOpen = false ∧
    ¬ (∃ code, code ≠ 0 ∧ (ReadSd [0, 0, 0, 0] 4 (powerUp (streamOf []))).1 = some code) ∧
    ¬ (∃ code, code ≠ 0 ∧ (WriteSd [1, 2, 3, 4] 4 (powerUp (streamOf []))).1 = some code) := by
  refine ⟨rfl, ?_, ?_⟩
  · rintro ⟨code, _, h⟩
    exact absurd h (by simp [ReadSd])
  · rintro ⟨code, _, h⟩
    exact absurd h (by simp [WriteSd])

/-- C13, amended: in every state, in particular with the session closed, `ReadSd`
and `WriteSd` transfer nothing on the bus and leave the driver state, the buffer
and the count unchanged; they produce no result code. -/
theorem ReadSd_WriteSd_do_nothing (buff : List Nat) (num : Nat) (s : SdState) :
    (ReadSd buff num s).1 = none ∧
    (ReadSd buff num s).2.1 = buff ∧ (ReadSd buff num s).2.2.1 = num ∧
    (ReadSd buff num s).2.2.2 = s ∧
    (ReadSd buff num s).2.2.2.spi.log = s.spi.log ∧
    (ReadSd buff num s).2.2.2.spi.pos = s.spi.pos ∧
    (WriteSd buff num s).1 = none ∧
    (WriteSd buff num s).2.1 = buff ∧ (WriteSd buff num s).2.2.1 = num ∧
    (WriteSd buff num s).2.2.2 = s ∧
    (WriteSd buff num s).2.2.2.spi.log = s.spi.log ∧
    (WriteSd buff num s).2.2.2.spi.pos = s.spi.pos :=
  ⟨rfl, rfl, rfl, rfl, rfl, rfl, rfl, rfl, rfl, rfl, rfl, rfl⟩

/-! ## The command argument of `OpenSd` -/

/-- C17 as stated fails: the register `wideCsd` gives `2 ^ 21` blocks of 32768
bytes; block 131072 is in range and its exact byte address is `2 ^ 32`, but
`OpenSd` sends the same command frame, with argument bytes 0, 0, 0, 0, as for
block 0. -/
theorem OpenSd_argument_wraps :
    (GetSdParameters wideBench).1 = 0 ∧
    131072 < (GetSdParameters wideBench).2.numBlocks ∧
    131072 * (GetSdParameters wideBench).2.rdBlockSize = 2 ^ 32 ∧
    (OpenSd 131072 READ_BLOCK (GetSdParameters wideBench).2).2.spi.log =
      (GetSdParameters wideBench).2.spi.log ++
        [SpiEvent.cs 0, SpiEvent.write 0xFF, SpiEvent.write 0x51,
         SpiEvent.write 0, SpiEvent.write 0, SpiEvent.write 0, SpiEvent.write 0,
         SpiEvent.write 0x95, SpiEvent.write 0xFF, SpiEvent.read 0x00, SpiEvent.read 0xFE] ∧
    (OpenSd 131072 READ_BLOCK (GetSdParameters wideBench).2).2.spi.log =
      (OpenSd 0 READ_BLOCK (GetSdParameters wideBench).2).2.spi.log := by
  refine ⟨by decide, by decide, by decide, by decide, by decide⟩


/-- C17, amended: for the card parameters that `GetSdParameters` produces from a
CSD register whose two block-length exponents are at most 11, and for every
`blockIdx < numBlocks`, the product `blockIdx * blockSize` is below `2 ^ 32`, so
the argument `OpenSd` passes to the card is the exact product, and distinct
block indices give distinct arguments. -/
theorem OpenSd_argument_exact (s0 : SdState) (blockIdx blockIdx2 : Nat)
    (hfetch : (PrepSdForDataIo SEND_CSD 0 s0.spi).1 = 0)
    (hr : csdRead s0 5 &&& 0x0F ≤ 11)
    (hw : ((csdRead s0 12 &&& 3) <<< 2) ||| (csdRead s0 13 >>> 6) ≤ 11)
    (h : blockIdx < (GetSdParameters s0).2.numBlocks) :
    blockIdx * (GetSdParameters s0).2.rdBlockSize < 2 ^ 32 ∧
    blockIdx * (GetSdParameters s0).2.wrBlockSize < 2 ^ 32 ∧
    (OpenSd blockIdx READ_BLOCK (GetSdParameters s0).2).2.spi =
      (PrepSdForDataIo READ_SINGLE_BLOCK (blockIdx * (GetSdParameters s0).2.rdBlockSize)
        (GetSdParameters s0).2.spi).2 ∧
    (OpenSd blockIdx WRITE_BLOCK (GetSdParameters s0).2).2.spi =
      (PrepSdForDataIo WRITE_SINGLE_BLOCK (blockIdx * (GetSdParameters s0).2.wrBlockSize)
        (GetSdParameters s0).2.spi).2 ∧
    (blockIdx ≠ blockIdx2 →
      blockIdx * (GetSdParameters s0).2.rdBlockSize
        ≠ blockIdx2 * (GetSdParameters s0).2.rdBlockSize ∧
      blockIdx * (GetSdParameters s0).2.wrBlockSize
        ≠ blockIdx2 * (GetSdParameters s0).2.wrBlockSize) := by
  obtain ⟨_, hn, hwr, hrd, _, _, _⟩ := GetSdParameters_ok s0 hfetch
  obtain ⟨_, _, _, _, hhi⟩ :=
    decodeCsd_numBlocks (upcoming (PrepSdForDataIo SEND_CSD 0 s0.spi).2) (upcoming_lt _)
  obtain ⟨ew, _, er, _⟩ :=
    decodeCsd_blockSizes (upcoming (PrepSdForDataIo SEND_CSD 0 s0.spi).2) (upcoming_lt _)
  rw [← hn] at hhi
  rw [← hwr] at ew
  rw [← hrd] at er
  have hrle : (GetSdParameters s0).2.rdBlockSize ≤ 2 ^ 11 := by
    rw [er]; exact Nat.pow_le_pow_right (by decide) hr
  have hwle : (GetSdParameters s0).2.wrBlockSize ≤ 2 ^ 11 := by
    rw [ew]; exact Nat.pow_le_pow_right (by decide) hw
  have hrpos : 0 < (GetSdParameters s0).2.rdBlockSize := by
    rw [er]; exact Nat.two_pow_pos _
  have hwpos : 0 < (GetSdParameters s0).2.wrBlockSize := by
    rw [ew]; exact Nat.two_pow_pos _
  have hb : blockIdx < 2 ^ 21 := Nat.lt_of_lt_of_le h hhi
  have hfr : blockIdx * (GetSdParameters s0).2.rdBlockSize < 2 ^ 32 := by
    have := Nat.mul_lt_mul_of_lt_of_le hb hrle (by decide)
    simpa using this
  have hfw : blockIdx * (GetSdParameters s0).2.wrBlockSize < 2 ^ 32 := by
    have := Nat.mul_lt_mul_of_lt_of_le hb hwle (by decide)
    simpa using this
  refine ⟨hfr, hfw, ?_, ?_, ?_⟩
  · rw [OpenSd_read_eq _ blockIdx h, Nat.mod_eq_of_lt hfr]
    split <;> rfl
  · rw [OpenSd_write_eq _ blockIdx h, Nat.mod_eq_of_lt hfw]
    split <;> rfl
  · intro hne
    exact ⟨fun e => hne (Nat.eq_of_mul_eq_mul_right hrpos e),
      fun e => hne (Nat.eq_of_mul_eq_mul_right hwpos e)⟩

/-- C17, amended, at a concrete input: the register `sampleCsd` has both
exponents equal to 9 and 1984000 blocks; the last block has byte address
1983999 * 512. -/
theorem OpenSd_argument_exact_witness :
    (PrepSdForDataIo SEND_CSD 0 (csdBench sampleCsd).spi).1 = 0 ∧
    csdRead (csdBench sampleCsd) 5 &&& 0x0F ≤ 11 ∧
    ((csdRead (csdBench sampleCsd) 12 &&& 3) <<< 2)
      ||| (csdRead (csdBench sampleCsd) 13 >>> 6) ≤ 11 ∧
    1983999 < (GetSdParameters (csdBench sampleCsd)).2.numBlocks ∧
    1983999 * (GetSdParameters (csdBench sampleCsd)).2.rdBlockSize < 2 ^ 32 ∧
    (OpenSd 1983999 READ_BLOCK (GetSdParameters (csdBench sampleCsd)).2).2.spi =
      (PrepSdForDataIo READ_SINGLE_BLOCK
        (1983999 * (GetSdParameters (csdBench sampleCsd)).2.rdBlockSize)
        (GetSdParameters (csdBench sampleCsd)).2.spi).2 :=
  ⟨by decide, by decide, by decide, by decide,
   (OpenSd_argument_exact (csdBench sampleCsd) 1983999 0 (by decide) (by decide) (by decide)
      (by decide)).1,
   (OpenSd_argument_exact (csdBench sampleCsd) 1983999 0 (by decide) (by decide) (by decide)
      (by decide)).2.2.1⟩

/-! ## The session-mode invariant -/

/-- C18, the code at the failing input: after a successful `InitSd`, `OpenSd`
for block 0 with mode byte 0 returns 0 and sets `open` while `read` and `write`
are both false, and nothing was sent to the card. -/
theorem OpenSd_open_without_mode :
    (InitSd initBench).1 = 0 ∧
    0 < (InitSd initBench).2.numBlocks ∧
    (OpenSd 0 0 (InitSd initBench).2).1 = 0 ∧
    (runCalls [SdCall.initSd, SdCall.openSd 0 0] initBench).currSdBlockStatus =
      { isOpen := true, write := false, read := false, blockIdx := 0, ptr := 0 } ∧
    (OpenSd 0 0 (InitSd initBench).2).2.spi.log = (InitSd initBench).2.spi.log ∧
    (OpenSd 0 0 (InitSd initBench).2).2.spi.pos = (InitSd initBench).2.spi.pos := by
  have hpos : 0 < (InitSd initBench).2.numBlocks := by decide
  have he := OpenSd_other_mode (InitSd initBench).2 0 0 hpos (by decide) (by decide)
  refine ⟨by decide, hpos, by rw [he], ?_, by rw [he], by rw [he]⟩
  show (OpenSd 0 0 (InitSd initBench).2).2.currSdBlockStatus = _
  rw [he]


/-! ## The dispatcher: `ServiceRequests` -/

/-- C14: when a request with command byte `INFO_CMD` is waiting and the card
parameters are within the ranges of their C types, `ServiceRequests` re-arms the
receive slot and sends one frame of 16 bytes: bytes 0-3 are `numBlocks`, bytes
4-5 `rdBlockSize`, bytes 6-7 `wrBlockSize`, each least significant byte first,
byte 8 is `eraseSize` and byte 9 is 0; bytes 10-15 are what the response buffer
held before. A failed `InitSd` changes none of the four card parameters, and
`InitSd` keeps them within those ranges. -/
theorem ServiceRequests_info (cfg : UsbConfig) (sd s : SdState) (st : UsbState)
    (hd : cfg.distinct = true) (hidle : st.outBusy st.OutIndex = false)
    (hcmd : st.OutBuffer st.OutIndex 0 % 256 = cfg.INFO_CMD)
    (hn : sd.numBlocks < 2 ^ 32) (hr : sd.rdBlockSize < 2 ^ 16) (hw : sd.wrBlockSize < 2 ^ 16)
    (he : sd.eraseSize < 2 ^ 8) :
    (ServiceRequests cfg sd st).log = st.log ++
      [UsbEvent.genRead st.OutIndex,
       UsbEvent.genWrite
        [sd.numBlocks % 256, (sd.numBlocks >>> 8) % 256, (sd.numBlocks >>> 16) % 256,
         (sd.numBlocks >>> 24) % 256,
         sd.rdBlockSize % 256, (sd.rdBlockSize >>> 8) % 256,
         sd.wrBlockSize % 256, (sd.wrBlockSize >>> 8) % 256,
         sd.eraseSize, 0,
         st.InBuffer st.InPacket 10, st.InBuffer st.InPacket 11, st.InBuffer st.InPacket 12,
         st.InBuffer st.InPacket 13, st.InBuffer st.InPacket 14, st.InBuffer st.InPacket 15]] ∧
    sd.numBlocks % 256 + 2 ^ 8 * ((sd.numBlocks >>> 8) % 256)
      + 2 ^ 16 * ((sd.numBlocks >>> 16) % 256) + 2 ^ 24 * ((sd.numBlocks >>> 24) % 256)
      = sd.numBlocks ∧
    sd.rdBlockSize % 256 + 2 ^ 8 * ((sd.rdBlockSize >>> 8) % 256) = sd.rdBlockSize ∧
    sd.wrBlockSize % 256 + 2 ^ 8 * ((sd.wrBlockSize >>> 8) % 256) = sd.wrBlockSize ∧
    ((InitSd s).1 ≠ 0 →
      (InitSd s).2.numBlocks = s.numBlocks ∧ (InitSd s).2.rdBlockSize = s.rdBlockSize ∧
      (InitSd s).2.wrBlockSize = s.wrBlockSize ∧ (InitSd s).2.eraseSize = s.eraseSize) ∧
    (s.numBlocks < 2 ^ 32 → s.wrBlockSize < 2 ^ 16 → s.rdBlockSize < 2 ^ 16 →
      s.eraseSize < 2 ^ 8 →
      (InitSd s).2.numBlocks < 2 ^ 32 ∧ (InitSd s).2.wrBlockSize < 2 ^ 16 ∧
      (InitSd s).2.rdBlockSize < 2 ^ 16 ∧ (InitSd s).2.eraseSize < 2 ^ 8) := by
  have hlog := ServiceRequests_info_log cfg sd st hd hidle hcmd
  have e1 : sd.eraseSize % 256 = sd.eraseSize := Nat.mod_eq_of_lt he
  have e2 : (sd.eraseSize >>> 8) % 256 = 0 := by
    rw [Nat.shiftRight_eq_div_pow]; omega
  rw [e1, e2] at hlog
  refine ⟨hlog, ?_, ?_, ?_, ?_, InitSd_typed s⟩
  · simp only [Nat.shiftRight_eq_div_pow]; omega
  · simp only [Nat.shiftRight_eq_div_pow]; omega
  · simp only [Nat.shiftRight_eq_div_pow]; omega
  · intro hfail
    obtain ⟨spi2, hs⟩ := InitSd_of_fail s hfail
    rw [hs]
    exact ⟨rfl, rfl, rfl, rfl⟩

/-- C14 at a concrete input: a card of 8 blocks of 512 bytes with erase size
`0x12`, and a response buffer that held `0xAA` everywhere. -/
theorem ServiceRequests_info_witness :
    sampleConfig.distinct = true ∧
    (usbBench [0x32] 0xAA).outBusy (usbBench [0x32] 0xAA).OutIndex = false ∧
    (ServiceRequests sampleConfig (cardState (streamOf [])) (usbBench [0x32] 0xAA)).log =
      [UsbEvent.genRead 0,
       UsbEvent.genWrite [8, 0, 0, 0, 0, 2, 0, 2, 0x12, 0, 0xAA, 0xAA, 0xAA, 0xAA, 0xAA, 0xAA]] :=
  ⟨by decide, by decide,
   (ServiceRequests_info sampleConfig (cardState (streamOf [])) (powerUp (streamOf [0x01]))
      (usbBench [0x32] 0xAA) (by decide) (by decide) (by decide) (by decide) (by decide)
      (by decide) (by decide)).1.trans (by decide)⟩

/-- C15: when a request is waiting whose command byte is none of `ID_BOARD_CMD`,
`INFO_CMD`, `READ_EEDATA_CMD`, `WRITE_EEDATA_CMD`, `RESET_CMD`, the `switch`
leaves `num_return_bytes` at 0 and `ServiceRequests` only records the request,
re-arms the receive slot and toggles `OutIndex`: no frame is sent, and `InIndex`,
`InPacket` and the response buffers are unchanged. -/
theorem ServiceRequests_unknown (cfg : UsbConfig) (sd : SdState) (st : UsbState)
    (hidle : st.outBusy st.OutIndex = false)
    (h1 : st.OutBuffer st.OutIndex 0 % 256 ≠ cfg.ID_BOARD_CMD)
    (h2 : st.OutBuffer st.OutIndex 0 % 256 ≠ cfg.INFO_CMD)
    (h3 : st.OutBuffer st.OutIndex 0 % 256 ≠ cfg.READ_EEDATA_CMD)
    (h4 : st.OutBuffer st.OutIndex 0 % 256 ≠ cfg.WRITE_EEDATA_CMD)
    (h5 : st.OutBuffer st.OutIndex 0 % 256 ≠ cfg.RESET_CMD) :
    (handleCmd cfg sd
      { st with OutPacket := st.OutIndex, OutPacketLength := st.outLength st.OutIndex,
                blink_counter := NUM_ACTIVITY_BLINKS }).1 = some 0 ∧
    ServiceRequests cfg sd st =
      { st with OutPacket := st.OutIndex, OutPacketLength := st.outLength st.OutIndex,
                blink_counter := NUM_ACTIVITY_BLINKS,
                log := st.log ++ [UsbEvent.genRead st.OutIndex],
                OutIndex := (st.OutIndex ^^^ 1) % 256 } ∧
    (ServiceRequests cfg sd st).InIndex = st.InIndex ∧
    (ServiceRequests cfg sd st).InPacket = st.InPacket ∧
    (ServiceRequests cfg sd st).InBuffer = st.InBuffer ∧
    (ServiceRequests cfg sd st).log = st.log ++ [UsbEvent.genRead st.OutIndex] := by
  have hh := handleCmd_default cfg sd
    { st with OutPacket := st.OutIndex, OutPacketLength := st.outLength st.OutIndex,
              blink_counter := NUM_ACTIVITY_BLINKS } h1 h2 h3 h4 h5
  have hs := ServiceRequests_eq cfg sd st _ hidle rfl
  rw [hh] at hs
  simp only [ne_eq, not_true_eq_false, if_false] at hs
  rw [hs, hh]
  exact ⟨rfl, rfl, rfl, rfl, rfl, rfl⟩

/-- C15 at a concrete input: a request with command byte `0x77`. -/
theorem ServiceRequests_unknown_witness :
    (usbBench [0x77] 0).outBusy (usbBench [0x77] 0).OutIndex = false ∧
    (ServiceRequests sampleConfig (cardState (streamOf [])) (usbBench [0x77] 0)).log =
      [UsbEvent.genRead 0] ∧
    (ServiceRequests sampleConfig (cardState (streamOf [])) (usbBench [0x77] 0)).OutIndex = 1 ∧
    (ServiceRequests sampleConfig (cardState (streamOf [])) (usbBench [0x77] 0)).InIndex = 0 :=
  ⟨by decide,
   (ServiceRequests_unknown sampleConfig (cardState (streamOf [])) (usbBench [0x77] 0)
      (by decide) (by decide) (by decide) (by decide) (by decide) (by decide)).2.2.2.2.2,
   by decide, by decide⟩

/-- C16, the code at the failing input: with an endpoint size of 64, a
`READ_EEDATA_CMD` request whose `len` byte is 60 makes `ServiceRequests` hand a
frame of 65 bytes to the send path, one more than the response buffer holds. -/
theorem ServiceRequests_read_eedata_overlong :
    sampleConfig.USBGEN_EP_SIZE = 64 ∧
    ∃ frame,
      (ServiceRequests sampleConfig (cardState (streamOf [])) (usbBench [0x04, 60, 0x00] 0)).log
        = [UsbEvent.genRead 0, UsbEvent.genWrite frame] ∧
      frame.length = 65 ∧ sampleConfig.USBGEN_EP_SIZE < frame.length := by
  refine ⟨rfl, ?_⟩
  obtain ⟨frame, hlog, hlen⟩ := ServiceRequests_read_eedata_log sampleConfig
    (cardState (streamOf [])) (usbBench [0x04, 60, 0x00] 0) 60 (by decide) (by decide)
    (by decide) (by decide) (by decide) (by decide)
  have h65 : frame.length = 65 := hlen.trans (by decide)
  exact ⟨frame, hlog, h65, by rw [h65]; decide⟩

/-- C19, the code at the failing input: two runs with the same `INFO_CMD`
request, the same card parameters and the same EEPROM, which differ only in what
the response buffers held before, send different frames: bytes 10-15 of the
response repeat the old buffer content. Likewise bytes 1-4 of the response to
`READ_EEDATA_CMD`. -/
theorem ServiceRequests_response_depends_on_buffer :
    usbBench [0x32] 0xAA = { usbBench [0x32] 0x00 with InBuffer := fun _ _ => 0xAA } ∧
    (ServiceRequests sampleConfig (cardState (streamOf [])) (usbBench [0x32] 0x00)).log =
      [UsbEvent.genRead 0,
       UsbEvent.genWrite [8, 0, 0, 0, 0, 2, 0, 2, 0x12, 0, 0, 0, 0, 0, 0, 0]] ∧
    (ServiceRequests sampleConfig (cardState (streamOf [])) (usbBench [0x32] 0xAA)).log =
      [UsbEvent.genRead 0,
       UsbEvent.genWrite [8, 0, 0, 0, 0, 2, 0, 2, 0x12, 0, 0xAA, 0xAA, 0xAA, 0xAA, 0xAA, 0xAA]] ∧
    (ServiceRequests sampleConfig (cardState (streamOf [])) (usbBench [0x04, 3, 0x10] 0x00)).log =
      [UsbEvent.genRead 0, UsbEvent.genWrite [0x04, 0, 0, 0, 0, 0x10, 0x11, 0x12]] ∧
    (ServiceRequests sampleConfig (cardState (streamOf [])) (usbBench [0x04, 3, 0x10] 0xAA)).log =
      [UsbEvent.genRead 0, UsbEvent.genWrite [0x04, 0xAA, 0xAA, 0xAA, 0xAA, 0x10, 0x11, 0x12]] := by
  refine ⟨rfl, by decide, by decide, by decide, by decide⟩

end XuDL
